import Mathlib

/-!
Verification of the ASAP CAPEX Planning core (capex_app.py): the risk
rating engine, the priority scoring engine (flat and weighted totals,
rank reassignment), the status history tracker, and the spreadsheet bulk
importer.  All numeric columns declared REAL in the SQLite
schema are modelled as rationals; dates are modelled as natural-number
ordinals; table rows are modelled as Lean structures and tables as lists
kept in insertion (rowid) order.
-/

namespace Capex

/-! ## Risk Rating Engine (risk_assessment_form, capex_app.py lines 1731-1745) -/

/-- The additive risk banding: `risk_score = cons_score + like_score`,
then `<=3` Low, `<=6` Moderate, `<=9` High, else Extreme. -/
def compute_risk (cons_score like_score : ℕ) : String :=
  let risk_score := cons_score + like_score
  if risk_score ≤ 3 then "Low"
  else if risk_score ≤ 6 then "Moderate"
  else if risk_score ≤ 9 then "High"
  else "Extreme"

/-- Severity index of a risk category, for stating band monotonicity. -/
def riskBandIndex : String → ℕ
  | "Low" => 0
  | "Moderate" => 1
  | "High" => 2
  | "Extreme" => 3
  | _ => 4

/-- The banding as a function of the sum alone. -/
def riskOfSum (s : ℕ) : String :=
  if s ≤ 3 then "Low"
  else if s ≤ 6 then "Moderate"
  else if s ≤ 9 then "High"
  else "Extreme"



/-! ## Data model (init_database, capex_app.py lines 180-411) -/

structure AssetClassRow where
  asset_class_id : ℕ
  class_name : String
  deriving DecidableEq

structure AssetTypeRow where
  asset_type_id : ℕ
  asset_class_id : ℕ
  type_name : String
  deriving DecidableEq

structure AssetRow where
  asset_id : ℕ
  asset_code : String
  asset_type_id : ℕ
  description : String
  deriving DecidableEq

structure PriorityScoreRow where
  score_id : ℕ
  asset_id : ℕ
  whs_score : ℚ
  water_savings_score : ℚ
  customer_score : ℚ
  maintenance_score : ℚ
  financial_score : ℚ
  total_priority_score : ℚ
  deriving DecidableEq

structure ProjectRow where
  project_id : ℕ
  asset_id : ℕ
  project_scope : String
  design_status_id : ℕ
  env_status_id : ℕ
  priority_rank : Option ℕ
  deriving DecidableEq

structure StatusNameRow where
  status_id : ℕ
  status_name : String
  deriving DecidableEq

structure ProjectStatusRow where
  project_status_id : ℕ
  status_code : String
  description : String
  deriving DecidableEq

structure StatusHistoryRow where
  history_id : ℕ
  project_id : ℕ
  project_status_id : ℕ
  status_date : ℕ
  comments : String
  deriving DecidableEq

structure CriterionRow where
  criterion_id : ℕ
  criterion_name : String
  weight_pct : ℚ
  deriving DecidableEq

/-- The SQLite database state visible on the app's connection.  Lists hold
rows in insertion (rowid) order; the `next_*` counters model AUTOINCREMENT. -/
structure DB where
  asset_classes : List AssetClassRow
  asset_types : List AssetTypeRow
  assets : List AssetRow
  priority_scores : List PriorityScoreRow
  projects : List ProjectRow
  status_history : List StatusHistoryRow
  criteria : List CriterionRow
  design_statuses : List StatusNameRow
  env_statuses : List StatusNameRow
  project_statuses : List ProjectStatusRow
  next_class_id : ℕ
  next_type_id : ℕ
  next_asset_id : ℕ
  next_score_id : ℕ
  next_project_id : ℕ
  next_history_id : ℕ
  deriving DecidableEq

/-! ## Single-record creation path (new_project_form, capex_app.py lines 1005-1109) -/

structure NewProjectInput where
  asset_code : String
  asset_class_id : ℕ
  comments : String
  description : String
  project_scope : String
  design_status_id : ℕ
  env_status_id : ℕ
  whs_score : ℚ
  water_score : ℚ
  customer_score : ℚ
  maintenance_score : ℚ
  financial_score : ℚ
  deriving DecidableEq

/-- The "Add New Project" form submission: required-field check, asset type
lookup-or-create keyed on the Comments text (case-sensitive, scoped to the
selected class), then insertion of asset, priority score (with the flat
unweighted total computed at line 1053), project, and the initial PLANNED
status history row. -/
def new_project_form (db : DB) (inp : NewProjectInput) (today : ℕ) : Except String DB :=
  if inp.asset_code = "" ∨ inp.project_scope = "" then
    .error "Please fill in all required fields marked with *"
  else
    let tRes := db.asset_types.find? fun t =>
      decide (t.type_name = inp.comments ∧ t.asset_class_id = inp.asset_class_id)
    let asset_type_id := match tRes with
      | some t => t.asset_type_id
      | none => db.next_type_id
    let db1 : DB := match tRes with
      | some _ => db
      | none =>
          { db with
            asset_types := db.asset_types ++ [⟨db.next_type_id, inp.asset_class_id, inp.comments⟩],
            next_type_id := db.next_type_id + 1 }
    if db1.assets.any (fun a => decide (a.asset_code = inp.asset_code)) then
      .error "Error creating project: UNIQUE constraint failed: asset.asset_code"
    else
      let asset_id := db1.next_asset_id
      let db2 : DB :=
        { db1 with
          assets := db1.assets ++ [⟨asset_id, inp.asset_code, asset_type_id, inp.description⟩],
          next_asset_id := asset_id + 1 }
      let total_score := inp.whs_score + inp.water_score + inp.customer_score +
        inp.maintenance_score + inp.financial_score
      let db3 : DB :=
        { db2 with
          priority_scores := db2.priority_scores ++
            [⟨db2.next_score_id, asset_id, inp.whs_score, inp.water_score, inp.customer_score,
              inp.maintenance_score, inp.financial_score, total_score⟩],
          next_score_id := db2.next_score_id + 1 }
      let project_id := db3.next_project_id
      let db4 : DB :=
        { db3 with
          projects := db3.projects ++
            [⟨project_id, asset_id, inp.project_scope, inp.design_status_id,
              inp.env_status_id, none⟩],
          next_project_id := project_id + 1 }
      match db4.project_statuses.find? (fun s => decide (s.status_code = "PLANNED")) with
      | none => .error "Error creating project: 'NoneType' object is not subscriptable"
      | some s =>
          .ok { db4 with
                status_history := db4.status_history ++
                  [⟨db4.next_history_id, project_id, s.project_status_id, today, "Project created"⟩],
                next_history_id := db4.next_history_id + 1 }

/-! ## Bulk import (import_projects_from_spreadsheet, capex_app.py lines 490-643) -/

/-- A spreadsheet cell holding a score: either a numeric value or a string
that does not parse as a float (`float(...)` raises on it). -/
inductive Cell where
  | num (q : ℚ)
  | text (s : String)
  deriving DecidableEq

/-- Python `float(cell)`: numeric cells coerce to their value; a non-numeric
string raises `ValueError("could not convert string to float: '...'")`. -/
def floatOfCell : Cell → Except String ℚ
  | .num q => .ok q
  | .text s => .error ("could not convert string to float: " ++ "'" ++ s ++ "'")

/-- One logical import row after the optional-column defaults were applied. -/
structure ImportRow where
  asset_code : String
  project_scope : String
  asset_class : String
  asset_type : String
  description : String
  design_status : String
  env_status : String
  whs_score : Cell
  water_score : Cell
  customer_score : Cell
  maintenance_score : Cell
  financial_score : Cell
  deriving DecidableEq

/-- Python `str.lower()` (ASCII), written so it reduces in the kernel. -/
def strLower (s : String) : String := ⟨s.data.map Char.toLower⟩

/-- Python `str.upper()` (ASCII), written so it reduces in the kernel. -/
def strUpper (s : String) : String := ⟨s.data.map Char.toUpper⟩

/-- Lines 546-553: case-insensitive lookup of the asset class in the
dataframe snapshot taken before the row loop; on a miss, INSERT the name
verbatim into the live table (the UNIQUE constraint on `class_name` is
byte-exact, so only an identical spelling makes the insert fail). -/
def resolveAssetClass (snapC : List AssetClassRow) (db : DB) (name : String) :
    Except (String × DB) (ℕ × DB) :=
  match snapC.find? (fun a => decide (strLower a.class_name = strLower name)) with
  | some a => .ok (a.asset_class_id, db)
  | none =>
      if db.asset_classes.any (fun a => decide (a.class_name = name)) then
        .error ("UNIQUE constraint failed: asset_class.class_name", db)
      else
        .ok (db.next_class_id,
          { db with
            asset_classes := db.asset_classes ++ [⟨db.next_class_id, name⟩],
            next_class_id := db.next_class_id + 1 })

/-- Lines 555-564: case-sensitive exact lookup of the asset type scoped to
the class, against the live table; INSERT the name verbatim on a miss. -/
def resolveAssetType (db : DB) (acid : ℕ) (name : String) : ℕ × DB :=
  match db.asset_types.find? fun t =>
      decide (t.type_name = name ∧ t.asset_class_id = acid) with
  | some t => (t.asset_type_id, db)
  | none =>
      (db.next_type_id,
        { db with
          asset_types := db.asset_types ++ [⟨db.next_type_id, acid, name⟩],
          next_type_id := db.next_type_id + 1 })

/-- Lines 566-572: case-insensitive lookup in the snapshot; fall back to
id 1 on a miss, inserting nothing. -/
def resolveStatusId (snap : List StatusNameRow) (name : String) : ℕ :=
  match snap.find? (fun s => decide (strLower s.status_name = strLower name)) with
  | some s => s.status_id
  | none => 1

/-- Lines 583/591/611: `float(row[...])` for the five components, evaluated
left to right; the first non-numeric cell raises. -/
def convertScores (row : ImportRow) : Except String (ℚ × ℚ × ℚ × ℚ × ℚ) :=
  match floatOfCell row.whs_score with
  | .error e => .error e
  | .ok w =>
    match floatOfCell row.water_score with
    | .error e => .error e
    | .ok wa =>
      match floatOfCell row.customer_score with
      | .error e => .error e
      | .ok c =>
        match floatOfCell row.maintenance_score with
        | .error e => .error e
        | .ok m =>
          match floatOfCell row.financial_score with
          | .error e => .error e
          | .ok f => .ok (w, wa, c, m, f)

/-- One iteration of the import row loop (lines 536-637): duplicate check
first, then reference resolution, then either the overwrite branch (UPDATE
asset / upsert score / UPDATE project, keyed on `asset_id`) or the create
branch (INSERT asset, score, project, PLANNED history).  Returns the
connection state after the row, the row error if any, and whether
`imported_count` was incremented.  A raised exception leaves the writes
already issued in place (sqlite3 does not roll them back). -/
def importRowStep (snapC : List AssetClassRow) (snapD snapE : List StatusNameRow)
    (overwrite : Bool) (today : ℕ) (db : DB) (idx : ℕ) (row : ImportRow) :
    DB × Option String × Bool :=
  let rowTag := "Row " ++ toString (idx + 1) ++ ": "
  match db.assets.find? (fun a => decide (a.asset_code = row.asset_code)) with
  | some asset =>
      if !overwrite then
        (db, some (rowTag ++ "Asset " ++ row.asset_code ++
          " already exists. Use overwrite option to replace."), false)
      else
        match resolveAssetClass snapC db row.asset_class with
        | .error (msg, dbe) => (dbe, some (rowTag ++ msg), false)
        | .ok (acid, db1) =>
            let tr := resolveAssetType db1 acid row.asset_type
            let dsid := resolveStatusId snapD row.design_status
            let esid := resolveStatusId snapE row.env_status
            let db3 : DB :=
              { tr.2 with
                assets := tr.2.assets.map fun a =>
                  if a.asset_id = asset.asset_id then
                    { a with asset_type_id := tr.1, description := row.description }
                  else a }
            match convertScores row with
            | .error msg => (db3, some (rowTag ++ msg), false)
            | .ok (w, wa, cu, m, f) =>
                let total := w + wa + cu + m + f
                let db4 : DB :=
                  if db3.priority_scores.any (fun r => decide (r.asset_id = asset.asset_id)) then
                    { db3 with
                      priority_scores := db3.priority_scores.map fun r =>
                        if r.asset_id = asset.asset_id then
                          { r with
                            whs_score := w, water_savings_score := wa, customer_score := cu,
                            maintenance_score := m, financial_score := f,
                            total_priority_score := total }
                        else r }
                  else
                    { db3 with
                      priority_scores := db3.priority_scores ++
                        [⟨db3.next_score_id, asset.asset_id, w, wa, cu, m, f, total⟩],
                      next_score_id := db3.next_score_id + 1 }
                let db5 : DB :=
                  { db4 with
                    projects := db4.projects.map fun p =>
                      if p.asset_id = asset.asset_id then
                        { p with
                          project_scope := row.project_scope,
                          design_status_id := dsid, env_status_id := esid }
                      else p }
                (db5, none, true)
  | none =>
      match resolveAssetClass snapC db row.asset_class with
      | .error (msg, dbe) => (dbe, some (rowTag ++ msg), false)
      | .ok (acid, db1) =>
          let tr := resolveAssetType db1 acid row.asset_type
          let dsid := resolveStatusId snapD row.design_status
          let esid := resolveStatusId snapE row.env_status
          let aid := tr.2.next_asset_id
          let db3 : DB :=
            { tr.2 with
              assets := tr.2.assets ++ [⟨aid, row.asset_code, tr.1, row.description⟩],
              next_asset_id := aid + 1 }
          match convertScores row with
          | .error msg => (db3, some (rowTag ++ msg), false)
          | .ok (w, wa, cu, m, f) =>
              let total := w + wa + cu + m + f
              let db4 : DB :=
                { db3 with
                  priority_scores := db3.priority_scores ++
                    [⟨db3.next_score_id, aid, w, wa, cu, m, f, total⟩],
                  next_score_id := db3.next_score_id + 1 }
              let pid := db4.next_project_id
              let db5 : DB :=
                { db4 with
                  projects := db4.projects ++
                    [⟨pid, aid, row.project_scope, dsid, esid, none⟩],
                  next_project_id := pid + 1 }
              match db5.project_statuses.find? (fun s => decide (s.status_code = "PLANNED")) with
              | none => (db5, some (rowTag ++ "'NoneType' object is not subscriptable"), false)
              | some s =>
                  ({ db5 with
                     status_history := db5.status_history ++
                       [⟨db5.next_history_id, pid, s.project_status_id, today,
                         "Project imported from spreadsheet"⟩],
                     next_history_id := db5.next_history_id + 1 }, none, true)

/-- The row loop: rows processed strictly in input order, each outcome
recorded independently; `idx` is the 0-based dataframe index. -/
def importLoop (snapC : List AssetClassRow) (snapD snapE : List StatusNameRow)
    (overwrite : Bool) (today : ℕ) : ℕ → DB → List ImportRow → ℕ × List String × DB
  | _, db, [] => (0, [], db)
  | idx, db, row :: rest =>
      let step := importRowStep snapC snapD snapE overwrite today db idx row
      let restRes := importLoop snapC snapD snapE overwrite today (idx + 1) step.1 rest
      ((if step.2.2 then 1 else 0) + restRes.1,
       (match step.2.1 with | some e => [e] | none => []) ++ restRes.2.1,
       restRes.2.2)

/-- The whole import: reference dataframes are read once before the loop
(lines 529-531) and used as snapshots by the per-row resolution. -/
def import_projects_from_spreadsheet (db : DB) (overwrite_existing : Bool) (today : ℕ)
    (rows : List ImportRow) : ℕ × List String × DB :=
  importLoop db.asset_classes db.design_statuses db.env_statuses overwrite_existing today 0 db rows

/-! ## Weighted recompute (recalculate_priority_scores, capex_app.py lines 2825-2905) -/

/-- Python's `pat in s` substring test. -/
def containsSub (s pat : String) : Bool := decide (pat.toList <:+: s.toList)

/-- The fuzzy criterion-name-to-bucket mapping of lines 2862-2879: substring
tests against the uppercased criterion name, in declared order, with the
average of the five buckets as the fallback for an unmatched name. -/
def criterionComponent (name : String) (r : PriorityScoreRow) : ℚ :=
  let u := strUpper name
  if containsSub u "WHS" || containsSub u "SAFETY" then r.whs_score
  else if containsSub u "WATER" then r.water_savings_score
  else if containsSub u "CUSTOMER" then r.customer_score
  else if containsSub u "MAINTENANCE" then r.maintenance_score
  else if containsSub u "FINANCIAL" || containsSub u "COST" || containsSub u "ROI" then
    r.financial_score
  else
    (r.whs_score + r.water_savings_score + r.customer_score + r.maintenance_score +
      r.financial_score) / 5

/-- `new_total`: sum over the criterion table of component times
`weight_pct / 100` (the dict built at line 2835). -/
def weightedTotal (criteria : List CriterionRow) (r : PriorityScoreRow) : ℚ :=
  (criteria.map fun cr => criterionComponent cr.criterion_name r * (cr.weight_pct / 100)).sum

/-- A sequence of SQL `UPDATE t SET ... WHERE key = ?` statements applied in
order to a table. -/
def sqlUpdateLoop {α β : Type} (key : α → ℕ) (upd : α → β → α)
    (updates : List (ℕ × β)) (table : List α) : List α :=
  updates.foldl (fun tbl u => tbl.map fun a => if key a = u.1 then upd a u.2 else a) table

/-- The rows produced by the ranking query (lines 2887-2893): Project INNER
JOIN asset LEFT JOIN priority_score, keeping `(project_id,
total_priority_score)`; a missing score row yields SQL NULL, modelled as
`⊥ : WithBot ℚ`. -/
def rankingRows (db : DB) : List (ℕ × WithBot ℚ) :=
  db.projects.flatMap fun p =>
    if db.assets.any (fun a => decide (a.asset_id = p.asset_id)) then
      match db.priority_scores.filter (fun r => decide (r.asset_id = p.asset_id)) with
      | [] => [(p.project_id, (⊥ : WithBot ℚ))]
      | rs => rs.map fun r => (p.project_id, (r.total_priority_score : WithBot ℚ))
    else []

/-- `ORDER BY ps.total_priority_score DESC`: in SQLite NULL sorts last under
DESC, so the relation puts larger totals first and `⊥` at the end. -/
def rankRel (x y : ℕ × WithBot ℚ) : Prop := y.2 ≤ x.2

instance : DecidableRel rankRel := fun x y => inferInstanceAs (Decidable (y.2 ≤ x.2))

instance : IsTotal (ℕ × WithBot ℚ) rankRel := ⟨fun x y => le_total y.2 x.2⟩

instance : IsTrans (ℕ × WithBot ℚ) rankRel := ⟨fun _ _ _ h1 h2 => le_trans h2 h1⟩

/-- Lines 2896-2898: `for rank, (project_id, score) in enumerate(rows, 1)`,
then `UPDATE project SET priority_rank = rank WHERE project_id = ?`. -/
def assignRanks (sorted : List (ℕ × WithBot ℚ)) (table : List ProjectRow) : List ProjectRow :=
  sqlUpdateLoop (fun p => p.project_id) (fun p n => { p with priority_rank := some n })
    ((List.enumFrom 1 sorted).map fun e => (e.2.1, e.1)) table

/-- The loop at lines 2849-2884: for every row of the snapshot taken at
line 2841, UPDATE its total to the weighted sum. -/
def recalcTotalsTable (db : DB) : List PriorityScoreRow :=
  sqlUpdateLoop (fun r => r.score_id) (fun r t => { r with total_priority_score := t })
    (db.priority_scores.map fun r => (r.score_id, weightedTotal db.criteria r))
    db.priority_scores

/-- The connection state after the totals loop, before rank reassignment. -/
def recalcMid (db : DB) : DB := { db with priority_scores := recalcTotalsTable db }

/-- The ranking query result, sorted by total descending with NULLs last. -/
def recalcSorted (db : DB) : List (ℕ × WithBot ℚ) :=
  List.insertionSort rankRel (rankingRows (recalcMid db))

/-- The whole weighted recompute: no-op when the criterion table is empty;
otherwise update every priority_score row's total from the snapshot taken
at line 2841, then reassign all ranks from a global descending sort.
Returns the new state and `projects_updated`. -/
def recalculate_priority_scores (db : DB) : DB × ℕ :=
  if db.criteria.isEmpty then (db, 0)
  else
    ({ recalcMid db with projects := assignRanks (recalcSorted db) (recalcMid db).projects },
     db.priority_scores.length)

/-- The recompute when the persistence store rejects the `failAt`-th total
UPDATE (a PersistenceError): the loop stops, the except branch at line 2903
reports the error and returns 0, and the updates already issued stay on the
connection — there is no rollback in the source. -/
def recalcTotalsWithFailure (criteria : List CriterionRow) (failAt : ℕ) :
    List PriorityScoreRow → ℕ → List PriorityScoreRow → List PriorityScoreRow × Bool
  | [], _, tbl => (tbl, false)
  | r :: rest, i, tbl =>
      if i = failAt then (tbl, true)
      else recalcTotalsWithFailure criteria failAt rest (i + 1)
        (tbl.map fun x =>
          if x.score_id = r.score_id then
            { x with total_priority_score := weightedTotal criteria r }
          else x)

/-- `recalculate_priority_scores` under the failure injection: on the error
path the function returns 0 with the partially updated connection state and
never reaches the rank reassignment. -/
def recalculate_priority_scores_failing (db : DB) (failAt : ℕ) : DB × ℕ × Bool :=
  if db.criteria.isEmpty then (db, 0, false)
  else
    let res := recalcTotalsWithFailure db.criteria failAt db.priority_scores 0 db.priority_scores
    if res.2 then ({ db with priority_scores := res.1 }, 0, true)
    else
      let db1 : DB := { db with priority_scores := res.1 }
      let sorted := List.insertionSort rankRel (rankingRows db1)
      ({ db1 with projects := assignRanks sorted db1.projects }, db.priority_scores.length, false)

/-! ## Status history tracker (capex_app.py lines 2105-2117 and 735-749) -/

/-- The row `ROW_NUMBER() OVER (PARTITION BY project_id ORDER BY status_date
DESC)` ranks first: the row with the maximum `status_date`.  SQLite leaves
the order of date ties unspecified; ties are modelled by the spec's stated
rule (the most recently inserted row, i.e. the largest rowid, wins). -/
def shLt (a b : StatusHistoryRow) : Prop :=
  a.status_date < b.status_date ∨
    (a.status_date = b.status_date ∧ a.history_id < b.history_id)

instance : DecidableRel shLt := fun a b =>
  inferInstanceAs (Decidable (a.status_date < b.status_date ∨
    (a.status_date = b.status_date ∧ a.history_id < b.history_id)))

def maxStatusRow : List StatusHistoryRow → Option StatusHistoryRow
  | [] => none
  | r :: rest =>
      match maxStatusRow rest with
      | none => some r
      | some b => if shLt r b then some b else some r

/-- Current status of a project: the `rn = 1` row of the status
distribution query, restricted to that project's history rows. -/
def currentStatusRow (hist : List StatusHistoryRow) (pid : ℕ) : Option StatusHistoryRow :=
  maxStatusRow (hist.filter fun h => decide (h.project_id = pid))

/-- The status code of the current status row, via the project_status join. -/
def currentStatusCode (db : DB) (pid : ℕ) : Option String :=
  (currentStatusRow db.status_history pid).bind fun h =>
    (db.project_statuses.find? fun s => decide (s.project_status_id = h.project_status_id)).map
      fun s => s.status_code

/-- Whether a history row's joined status code is among `codes`. -/
def statusCodeMatches (db : DB) (codes : List String) (h : StatusHistoryRow) : Bool :=
  (db.project_statuses.find? fun s => decide (s.project_status_id = h.project_status_id)).any
    fun s => codes.contains s.status_code

/-- The dashboard KPI queries (lines 735-749): `COUNT(DISTINCT p.project_id)`
over project JOIN project_status_history JOIN project_status WHERE the
status code is in `codes` — i.e. projects having ANY history row with a
matching code, not just the current one. -/
def countProjectsWithAnyStatus (db : DB) (codes : List String) : ℕ :=
  (((db.projects.filter fun p =>
      db.status_history.any fun h =>
        decide (h.project_id = p.project_id) && statusCodeMatches db codes h).map
    fun p => p.project_id).dedup).length

/-- The "Active Projects" KPI. -/
def active_projects_kpi (db : DB) : ℕ :=
  countProjectsWithAnyStatus db ["IN_PROGRESS", "DESIGN"]

/-- The "Completed Projects" KPI. -/
def completed_projects_kpi (db : DB) : ℕ :=
  countProjectsWithAnyStatus db ["COMPLETED"]

/-- Modelled from the spec's words, for comparison with the code's KPI
queries: the number of projects whose CURRENT status (per
`currentStatusCode`) is among `codes`. -/
def specCurrentStatusCount (db : DB) (codes : List String) : ℕ :=
  (db.projects.filter fun p =>
    (currentStatusCode db p.project_id).any fun c => codes.contains c).length

/-! ### Concrete states used in scenarios, counterexamples and witnesses -/

/-- The database right after `init_database` seeded the reference tables. -/
def seededDB : DB :=
  { asset_classes := [⟨1, "Bridges & Culverts"⟩, ⟨2, "Regulators"⟩, ⟨3, "Outlets"⟩,
      ⟨4, "Pump Stations & Facilities"⟩, ⟨5, "Channels"⟩, ⟨6, "Meters"⟩],
    asset_types := [], assets := [], priority_scores := [], projects := [],
    status_history := [],
    criteria := [⟨1, "WHS", 30⟩, ⟨2, "Water Savings", 20⟩, ⟨3, "Customer", 30⟩,
      ⟨4, "Maintenance/Ops", 10⟩, ⟨5, "Financial", 10⟩],
    design_statuses := [⟨1, "To be assigned"⟩, ⟨2, "Under Development"⟩, ⟨3, "For Review"⟩,
      ⟨4, "Approved"⟩, ⟨5, "Pending WAE"⟩, ⟨6, "Complete"⟩],
    env_statuses := [⟨1, "Pending"⟩, ⟨2, "Complete"⟩],
    project_statuses := [⟨1, "PLANNED", "Project is planned"⟩, ⟨2, "DESIGN", "In design phase"⟩,
      ⟨3, "APPROVED", "Approved by board"⟩, ⟨4, "IN_PROGRESS", "Construction in progress"⟩,
      ⟨5, "COMPLETED", "Project completed"⟩, ⟨6, "ON_HOLD", "Project on hold"⟩],
    next_class_id := 7, next_type_id := 1, next_asset_id := 1, next_score_id := 1,
    next_project_id := 1, next_history_id := 1 }

/-- The C2 scenario form submission: CD-2-001 with components (8,5,7,9,6). -/
def cd2Input : NewProjectInput := ⟨"CD-2-001", 1, "", "", "scope", 1, 1, 8, 5, 7, 9, 6⟩

/-- An import row carrying a negative WHS score. -/
def negScoreRow : ImportRow :=
  ⟨"N-1", "scope", "Bridges & Culverts", "General", "", "To be assigned", "Pending",
    .num (-5), .num 0, .num 0, .num 0, .num 0⟩

/-- A batch row with an asset code that already exists, used in the C6
scenario. -/
def importedRow (code : String) : ImportRow :=
  ⟨code, "scope", "Bridges & Culverts", "General", "", "To be assigned", "Pending",
    .num 0, .num 0, .num 0, .num 0, .num 0⟩

/-- The C6 scenario start state: the seeded database already holding an
asset with code B-2. -/
def dupScenarioDB : DB :=
  { seededDB with
    assets := [⟨1, "B-2", 1, ""⟩],
    asset_types := [⟨1, 1, "General"⟩],
    next_type_id := 2, next_asset_id := 2 }

/-- An import row whose asset type differs only in case from an existing
type row of the same class. -/
def caseCloneRow : ImportRow :=
  ⟨"C-1", "scope", "Bridges & Culverts", "GENERAL", "", "To be assigned", "Pending",
    .num 0, .num 0, .num 0, .num 0, .num 0⟩

/-- A project whose history holds IN_PROGRESS (day 1) then COMPLETED
(day 2), against the seeded status table. -/
def statusCexDB : DB :=
  { seededDB with
    asset_types := [⟨1, 1, "General"⟩],
    assets := [⟨1, "A", 1, ""⟩],
    projects := [⟨1, 1, "s", 1, 1, none⟩],
    status_history := [⟨1, 1, 4, 1, ""⟩, ⟨2, 1, 5, 2, ""⟩],
    next_type_id := 2, next_asset_id := 2, next_project_id := 2, next_history_id := 3 }

/-- Two scored assets with WHS 10 and 20, zero stored totals, and the single
criterion WHS at weight 100. -/
def recalcFailDB : DB :=
  { seededDB with
    asset_types := [⟨1, 1, "General"⟩],
    assets := [⟨1, "A1", 1, ""⟩, ⟨2, "A2", 1, ""⟩],
    priority_scores := [⟨1, 1, 10, 0, 0, 0, 0, 0⟩, ⟨2, 2, 20, 0, 0, 0, 0, 0⟩],
    projects := [⟨1, 1, "s", 1, 1, none⟩, ⟨2, 2, "s", 1, 1, none⟩],
    criteria := [⟨1, "WHS", 100⟩],
    next_type_id := 2, next_asset_id := 3, next_score_id := 3, next_project_id := 3 }

/-- Position of the first occurrence of `x` in a list of keys. -/
def posOf : List ℕ → ℕ → ℕ
  | [], _ => 0
  | a :: t, x => if a = x then 0 else posOf t x + 1

/-- The LEFT JOINed total of a project in the ranking query: SQL NULL (`⊥`)
when its asset has no priority_score row, else the first row's total. -/
def projTotal (db : DB) (p : ProjectRow) : WithBot ℚ :=
  match db.priority_scores.filter (fun r => decide (r.asset_id = p.asset_id)) with
  | [] => ⊥
  | r :: _ => (r.total_priority_score : WithBot ℚ)


/-- recalcFailDB plus a third project whose asset has no score row. -/
def rankCexDB : DB :=
  { recalcFailDB with
    assets := recalcFailDB.assets ++ [⟨3, "A3", 1, ""⟩],
    projects := recalcFailDB.projects ++ [⟨3, 3, "s", 1, 1, none⟩],
    next_asset_id := 4, next_project_id := 4 }

/-! ## Theorems -/

lemma compute_risk_eq_riskOfSum (c l : ℕ) : compute_risk c l = riskOfSum (c + l) := rfl

lemma riskOfSum_mono {s t : ℕ} (h : s ≤ t) :
    riskBandIndex (riskOfSum s) ≤ riskBandIndex (riskOfSum t) := by
  unfold riskOfSum
  by_cases h3 : s ≤ 3 <;> by_cases h6 : s ≤ 6 <;> by_cases h9 : s ≤ 9 <;>
    by_cases g3 : t ≤ 3 <;> by_cases g6 : t ≤ 6 <;> by_cases g9 : t ≤ 9 <;>
      simp [h3, h6, h9, g3, g6, g9, riskBandIndex] <;> omega


/-- C1: for consequence scores 1..5 and likelihood scores 1..6,
`compute_risk` depends only on the sum, maps sum ≤ 3 to "Low", 4-6 to
"Moderate", 7-9 to "High", ≥ 10 to "Extreme", always lands in one of the
four categories, is monotonically non-decreasing in severity band as the
sum grows, and sends (5,6) to "Extreme" and (1,1) to "Low". -/
theorem compute_risk_correct (c l : ℕ) (hc1 : 1 ≤ c) (hc5 : c ≤ 5)
    (hl1 : 1 ≤ l) (hl6 : l ≤ 6) :
    (∀ c2 l2 : ℕ, c2 + l2 = c + l → compute_risk c2 l2 = compute_risk c l) ∧
    (c + l ≤ 3 → compute_risk c l = "Low") ∧
    (4 ≤ c + l → c + l ≤ 6 → compute_risk c l = "Moderate") ∧
    (7 ≤ c + l → c + l ≤ 9 → compute_risk c l = "High") ∧
    (10 ≤ c + l → compute_risk c l = "Extreme") ∧
    (compute_risk c l = "Low" ∨ compute_risk c l = "Moderate" ∨
      compute_risk c l = "High" ∨ compute_risk c l = "Extreme") ∧
    (∀ c2 l2 : ℕ, c + l ≤ c2 + l2 →
      riskBandIndex (compute_risk c l) ≤ riskBandIndex (compute_risk c2 l2)) ∧
    compute_risk 5 6 = "Extreme" ∧ compute_risk 1 1 = "Low" := by
  refine ⟨?_, ?_, ?_, ?_, ?_, ?_, ?_, ?_, ?_⟩
  · intro c2 l2 h
    rw [compute_risk_eq_riskOfSum, compute_risk_eq_riskOfSum, h]
  · intro h
    rw [compute_risk_eq_riskOfSum]
    unfold riskOfSum
    rw [if_pos h]
  · intro h4 h6
    rw [compute_risk_eq_riskOfSum]
    unfold riskOfSum
    rw [if_neg (by omega), if_pos h6]
  · intro h7 h9
    rw [compute_risk_eq_riskOfSum]
    unfold riskOfSum
    rw [if_neg (by omega), if_neg (by omega), if_pos h9]
  · intro h10
    rw [compute_risk_eq_riskOfSum]
    unfold riskOfSum
    rw [if_neg (by omega), if_neg (by omega), if_neg (by omega)]
  · rw [compute_risk_eq_riskOfSum]
    unfold riskOfSum
    split_ifs <;> simp
  · intro c2 l2 h
    rw [compute_risk_eq_riskOfSum, compute_risk_eq_riskOfSum]
    exact riskOfSum_mono h
  · rfl
  · rfl

/-- Witness for C1 at (consequence, likelihood) = (5, 6). -/
theorem compute_risk_correct_witness :
    ((1:ℕ) ≤ 5 ∧ (5:ℕ) ≤ 5 ∧ (1:ℕ) ≤ 6 ∧ (6:ℕ) ≤ 6) ∧
      compute_risk 5 6 = "Extreme" ∧ compute_risk 1 1 = "Low" :=
  ⟨by decide,
    (compute_risk_correct 5 6 (by decide) (by decide) (by decide) (by decide)).2.2.2.2.2.2.2⟩

/-! ### Helper lemmas on the creation paths -/

lemma resolveAssetClass_ok_scores (snapC : List AssetClassRow) (db : DB) (name : String)
    (acid : ℕ) (db1 : DB) (h : resolveAssetClass snapC db name = .ok (acid, db1)) :
    db1.priority_scores = db.priority_scores := by
  unfold resolveAssetClass at h
  split at h
  · have h2 := (Prod.mk.injEq _ _ _ _).mp ((Except.ok.injEq _ _).mp h)
    rw [← h2.2]
  · split at h
    · exact absurd h (by simp)
    · have h2 := (Prod.mk.injEq _ _ _ _).mp ((Except.ok.injEq _ _).mp h)
      rw [← h2.2]

lemma resolveAssetType_scores (db : DB) (acid : ℕ) (name : String) :
    (resolveAssetType db acid name).2.priority_scores = db.priority_scores := by
  unfold resolveAssetType
  split <;> rfl

lemma convertScores_ok (row : ImportRow) (w wa cu m f : ℚ)
    (h : convertScores row = .ok (w, wa, cu, m, f)) :
    row.whs_score = .num w ∧ row.water_score = .num wa ∧ row.customer_score = .num cu ∧
      row.maintenance_score = .num m ∧ row.financial_score = .num f := by
  cases hw : row.whs_score <;> cases hwa : row.water_score <;> cases hcu : row.customer_score <;>
    cases hm : row.maintenance_score <;> cases hf : row.financial_score <;>
    simp_all [convertScores, floatOfCell]

/-- Successful form creation appends exactly one priority score row whose
total is the flat unweighted sum of the five submitted components. -/
lemma new_project_form_ok_scores (db : DB) (inp : NewProjectInput) (today : ℕ) (db2 : DB)
    (h : new_project_form db inp today = .ok db2) :
    ∃ sid aid, db2.priority_scores = db.priority_scores ++
      [⟨sid, aid, inp.whs_score, inp.water_score, inp.customer_score,
        inp.maintenance_score, inp.financial_score,
        inp.whs_score + inp.water_score + inp.customer_score +
          inp.maintenance_score + inp.financial_score⟩] := by
  unfold new_project_form at h
  split at h
  · exact absurd h (by simp)
  · simp only [] at h
    cases htr : db.asset_types.find? fun t =>
        decide (t.type_name = inp.comments ∧ t.asset_class_id = inp.asset_class_id) <;>
      rw [htr] at h <;> dsimp only at h <;>
      split at h <;>
      first
        | exact absurd h (by simp)
        | (split at h
           · exact absurd h (by simp)
           · have h2 := (Except.ok.injEq _ _).mp h
             subst h2
             exact ⟨_, _, rfl⟩)

/-- A successful import of a fresh asset code appends exactly one priority
score row holding the five coerced cell values and their flat sum. -/
lemma importRowStep_create_scores (snapC : List AssetClassRow) (snapD snapE : List StatusNameRow)
    (ov : Bool) (today : ℕ) (db : DB) (idx : ℕ) (row : ImportRow) (db2 : DB) (cnt : Bool)
    (hfresh : db.assets.find? (fun a => decide (a.asset_code = row.asset_code)) = none)
    (h : importRowStep snapC snapD snapE ov today db idx row = (db2, none, cnt)) :
    ∃ sid aid w wa cu m f,
      db2.priority_scores = db.priority_scores ++ [⟨sid, aid, w, wa, cu, m, f,
        w + wa + cu + m + f⟩] ∧
      row.whs_score = .num w ∧ row.water_score = .num wa ∧ row.customer_score = .num cu ∧
      row.maintenance_score = .num m ∧ row.financial_score = .num f := by
  unfold importRowStep at h
  rw [hfresh] at h
  dsimp only at h
  cases hrc : resolveAssetClass snapC db row.asset_class with
  | error e => rw [hrc] at h; exact absurd ((Prod.mk.injEq _ _ _ _).mp h).2 (by simp)
  | ok pr =>
    obtain ⟨acid, db1⟩ := pr
    rw [hrc] at h
    dsimp only at h
    cases hcv : convertScores row with
    | error msg => rw [hcv] at h; exact absurd ((Prod.mk.injEq _ _ _ _).mp h).2 (by simp)
    | ok q =>
      obtain ⟨w, wa, cu, m, f⟩ := q
      rw [hcv] at h
      dsimp only at h
      obtain ⟨hw, hwa, hcu, hm, hf⟩ := convertScores_ok row w wa cu m f hcv
      cases hst : List.find? (fun s => decide (s.status_code = "PLANNED"))
          (resolveAssetType db1 acid row.asset_type).2.project_statuses with
      | none => rw [hst] at h; exact absurd ((Prod.mk.injEq _ _ _ _).mp h).2 (by simp)
      | some s =>
        rw [hst] at h
        dsimp only at h
        have h2 := ((Prod.mk.injEq _ _ _ _).mp h).1
        subst h2
        refine ⟨(resolveAssetType db1 acid row.asset_type).2.next_score_id,
          (resolveAssetType db1 acid row.asset_type).2.next_asset_id,
          w, wa, cu, m, f, ?_, hw, hwa, hcu, hm, hf⟩
        dsimp only
        rw [resolveAssetType_scores db1 acid row.asset_type,
          resolveAssetClass_ok_scores snapC db row.asset_class acid db1 hrc]

/-! ### Concrete states for scenarios -/



/-- C2: every asset created through the single-record form path or through
the bulk importer creation path persists `total_priority_score` equal to the
unweighted sum whs + water + customer + maintenance + financial of the
supplied components, whatever the criterion table holds; in particular
creating CD-2-001 with (8,5,7,9,6) stores 35. -/
theorem flat_total_on_creation_paths :
    (∀ (db : DB) (inp : NewProjectInput) (today : ℕ) (db2 : DB),
      new_project_form db inp today = .ok db2 →
      ∃ sid aid, db2.priority_scores = db.priority_scores ++
        [⟨sid, aid, inp.whs_score, inp.water_score, inp.customer_score,
          inp.maintenance_score, inp.financial_score,
          inp.whs_score + inp.water_score + inp.customer_score +
            inp.maintenance_score + inp.financial_score⟩]) ∧
    (∀ (snapC : List AssetClassRow) (snapD snapE : List StatusNameRow) (ov : Bool) (today : ℕ)
      (db : DB) (idx : ℕ) (row : ImportRow) (db2 : DB) (cnt : Bool),
      db.assets.find? (fun a => decide (a.asset_code = row.asset_code)) = none →
      importRowStep snapC snapD snapE ov today db idx row = (db2, none, cnt) →
      ∃ sid aid w wa cu m f,
        db2.priority_scores = db.priority_scores ++ [⟨sid, aid, w, wa, cu, m, f,
          w + wa + cu + m + f⟩] ∧
        row.whs_score = .num w ∧ row.water_score = .num wa ∧ row.customer_score = .num cu ∧
        row.maintenance_score = .num m ∧ row.financial_score = .num f) ∧
    ((new_project_form seededDB cd2Input 0).toOption.map fun d =>
      d.priority_scores.map fun r => (r.asset_id, r.total_priority_score)) = some [(1, 35)] := by
  refine ⟨new_project_form_ok_scores, importRowStep_create_scores, ?_⟩
  simp +decide [new_project_form, seededDB, cd2Input]
  exact ⟨_, rfl, by norm_num⟩

/-- Witness for C2: the CD-2-001 scenario run through the form path. -/
theorem flat_total_on_creation_paths_witness :
    ∃ d, new_project_form seededDB cd2Input 0 = Except.ok d ∧
      ∃ sid aid, d.priority_scores = [⟨sid, aid, 8, 5, 7, 9, 6, 8 + 5 + 7 + 9 + 6⟩] := by
  have hok : ∃ d, new_project_form seededDB cd2Input 0 = Except.ok d := by
    simp +decide [new_project_form, seededDB, cd2Input]
  obtain ⟨d, hd⟩ := hok
  obtain ⟨sid, aid, hps⟩ := flat_total_on_creation_paths.1 seededDB cd2Input 0 d hd
  exact ⟨d, hd, sid, aid, by simpa [seededDB, cd2Input] using hps⟩


/-- C9 counterexample: importing a row with whs_score = -5 stores -5
verbatim — the claimed clamping to non-negative does not happen. -/
theorem import_scores_not_clamped_cex :
    ((import_projects_from_spreadsheet seededDB false 0 [negScoreRow]).2.2.priority_scores.map
      fun r => r.whs_score) = [-5] ∧ (-5 : ℚ) < 0 := by
  constructor
  · simp +decide [import_projects_from_spreadsheet, importLoop, importRowStep, seededDB,
      negScoreRow, resolveAssetClass, resolveAssetType, resolveStatusId, convertScores,
      floatOfCell]
  · norm_num

lemma convertScores_whs_text (row : ImportRow) (s : String)
    (hw : row.whs_score = .text s) :
    convertScores row = .error ("could not convert string to float: " ++ "'" ++ s ++ "'") := by
  unfold convertScores
  rw [hw]
  rfl

lemma convertScores_financial_text (row : ImportRow) (w wa cu m : ℚ) (s : String)
    (hw : row.whs_score = .num w) (hwa : row.water_score = .num wa)
    (hcu : row.customer_score = .num cu) (hm : row.maintenance_score = .num m)
    (hf : row.financial_score = .text s) :
    convertScores row = .error ("could not convert string to float: " ++ "'" ++ s ++ "'") := by
  unfold convertScores
  rw [hw, hwa, hcu, hm, hf]
  rfl

lemma importRowStep_conversion_error (snapC : List AssetClassRow)
    (snapD snapE : List StatusNameRow) (ov : Bool) (today : ℕ) (db : DB) (idx : ℕ)
    (row : ImportRow) (msg : String) (acid : ℕ) (db1 : DB)
    (hfresh : db.assets.find? (fun a => decide (a.asset_code = row.asset_code)) = none)
    (hrc : resolveAssetClass snapC db row.asset_class = .ok (acid, db1))
    (hcv : convertScores row = .error msg) :
    (importRowStep snapC snapD snapE ov today db idx row).2 =
      (some ("Row " ++ toString (idx + 1) ++ ": " ++ msg), false) := by
  unfold importRowStep
  rw [hfresh]
  dsimp only
  rw [hrc]
  dsimp only
  rw [hcv]

lemma convertScores_all_num (row : ImportRow) (w wa cu m f : ℚ)
    (hw : row.whs_score = .num w) (hwa : row.water_score = .num wa)
    (hcu : row.customer_score = .num cu) (hm : row.maintenance_score = .num m)
    (hf : row.financial_score = .num f) :
    convertScores row = .ok (w, wa, cu, m, f) := by
  unfold convertScores
  rw [hw, hwa, hcu, hm, hf]
  rfl

lemma importRowStep_overwrite_conversion_error (snapC : List AssetClassRow)
    (snapD snapE : List StatusNameRow) (today : ℕ) (db : DB) (idx : ℕ)
    (row : ImportRow) (msg : String) (asset : AssetRow) (acid : ℕ) (db1 : DB)
    (hfind : db.assets.find? (fun a => decide (a.asset_code = row.asset_code)) = some asset)
    (hrc : resolveAssetClass snapC db row.asset_class = .ok (acid, db1))
    (hcv : convertScores row = .error msg) :
    (importRowStep snapC snapD snapE true today db idx row).2 =
      (some ("Row " ++ toString (idx + 1) ++ ": " ++ msg), false) := by
  unfold importRowStep
  rw [hfind]
  dsimp only
  rw [if_neg (by simp)]
  rw [hrc]
  dsimp only
  rw [hcv]

lemma importRowStep_overwrite_scores (snapC : List AssetClassRow)
    (snapD snapE : List StatusNameRow) (today : ℕ) (db : DB) (idx : ℕ)
    (row : ImportRow) (w wa cu m f : ℚ) (asset : AssetRow) (acid : ℕ) (db1 : DB)
    (hfind : db.assets.find? (fun a => decide (a.asset_code = row.asset_code)) = some asset)
    (hrc : resolveAssetClass snapC db row.asset_class = .ok (acid, db1))
    (hw : row.whs_score = .num w) (hwa : row.water_score = .num wa)
    (hcu : row.customer_score = .num cu) (hm : row.maintenance_score = .num m)
    (hf : row.financial_score = .num f) :
    ∃ db2, importRowStep snapC snapD snapE true today db idx row = (db2, none, true) ∧
      ((db.priority_scores.any fun r => decide (r.asset_id = asset.asset_id)) = true →
        db2.priority_scores = db.priority_scores.map fun r =>
          if r.asset_id = asset.asset_id then
            { r with
              whs_score := w, water_savings_score := wa, customer_score := cu,
              maintenance_score := m, financial_score := f,
              total_priority_score := w + wa + cu + m + f }
          else r) ∧
      ((db.priority_scores.any fun r => decide (r.asset_id = asset.asset_id)) = false →
        ∃ sid, db2.priority_scores = db.priority_scores ++
          [⟨sid, asset.asset_id, w, wa, cu, m, f, w + wa + cu + m + f⟩]) := by
  have hps : (resolveAssetType db1 acid row.asset_type).2.priority_scores =
      db.priority_scores := by
    rw [resolveAssetType_scores db1 acid row.asset_type,
      resolveAssetClass_ok_scores snapC db row.asset_class acid db1 hrc]
  unfold importRowStep
  rw [hfind]
  dsimp only
  rw [if_neg (by simp)]
  rw [hrc]
  dsimp only
  rw [convertScores_all_num row w wa cu m f hw hwa hcu hm hf]
  dsimp only
  rw [hps]
  refine ⟨_, rfl, ?_, ?_⟩
  · intro hany
    rw [if_pos hany]
  · intro hany
    rw [if_neg (by rw [hany]; exact Bool.false_ne_true)]
    exact ⟨_, rfl⟩

/-- C9 (amended): on both import branches — creating a fresh asset and
overwriting an existing one — the five component scores are coerced to
float and stored exactly as supplied, with no clamping (negatives
included); a non-numeric component makes the row fail with the generic
Python conversion error prefixed by the 1-based row number — the same
message whether the bad field is whs_score or financial_score, so the
error does not name the field. -/
theorem import_score_coercion_amended :
    (∀ (snapC : List AssetClassRow) (snapD snapE : List StatusNameRow) (ov : Bool) (today : ℕ)
      (db : DB) (idx : ℕ) (row : ImportRow) (db2 : DB) (cnt : Bool),
      db.assets.find? (fun a => decide (a.asset_code = row.asset_code)) = none →
      importRowStep snapC snapD snapE ov today db idx row = (db2, none, cnt) →
      ∃ sid aid w wa cu m f,
        db2.priority_scores = db.priority_scores ++ [⟨sid, aid, w, wa, cu, m, f,
          w + wa + cu + m + f⟩] ∧
        row.whs_score = .num w ∧ row.water_score = .num wa ∧ row.customer_score = .num cu ∧
        row.maintenance_score = .num m ∧ row.financial_score = .num f) ∧
    (∀ (snapC : List AssetClassRow) (snapD snapE : List StatusNameRow) (ov : Bool) (today : ℕ)
      (db : DB) (idx : ℕ) (row : ImportRow) (s : String) (acid : ℕ) (db1 : DB),
      db.assets.find? (fun a => decide (a.asset_code = row.asset_code)) = none →
      resolveAssetClass snapC db row.asset_class = .ok (acid, db1) →
      row.whs_score = .text s →
      (importRowStep snapC snapD snapE ov today db idx row).2 =
        (some ("Row " ++ toString (idx + 1) ++ ": " ++
          ("could not convert string to float: " ++ "'" ++ s ++ "'")), false)) ∧
    (∀ (snapC : List AssetClassRow) (snapD snapE : List StatusNameRow) (ov : Bool) (today : ℕ)
      (db : DB) (idx : ℕ) (row : ImportRow) (w wa cu m : ℚ) (s : String) (acid : ℕ) (db1 : DB),
      db.assets.find? (fun a => decide (a.asset_code = row.asset_code)) = none →
      resolveAssetClass snapC db row.asset_class = .ok (acid, db1) →
      row.whs_score = .num w → row.water_score = .num wa → row.customer_score = .num cu →
      row.maintenance_score = .num m → row.financial_score = .text s →
      (importRowStep snapC snapD snapE ov today db idx row).2 =
        (some ("Row " ++ toString (idx + 1) ++ ": " ++
          ("could not convert string to float: " ++ "'" ++ s ++ "'")), false)) ∧
    (∀ (snapC : List AssetClassRow) (snapD snapE : List StatusNameRow) (today : ℕ)
      (db : DB) (idx : ℕ) (row : ImportRow) (w wa cu m f : ℚ) (asset : AssetRow)
      (acid : ℕ) (db1 : DB),
      db.assets.find? (fun a => decide (a.asset_code = row.asset_code)) = some asset →
      resolveAssetClass snapC db row.asset_class = .ok (acid, db1) →
      row.whs_score = .num w → row.water_score = .num wa → row.customer_score = .num cu →
      row.maintenance_score = .num m → row.financial_score = .num f →
      ∃ db2, importRowStep snapC snapD snapE true today db idx row = (db2, none, true) ∧
        ((db.priority_scores.any fun r => decide (r.asset_id = asset.asset_id)) = true →
          db2.priority_scores = db.priority_scores.map fun r =>
            if r.asset_id = asset.asset_id then
              { r with
                whs_score := w, water_savings_score := wa, customer_score := cu,
                maintenance_score := m, financial_score := f,
                total_priority_score := w + wa + cu + m + f }
            else r) ∧
        ((db.priority_scores.any fun r => decide (r.asset_id = asset.asset_id)) = false →
          ∃ sid, db2.priority_scores = db.priority_scores ++
            [⟨sid, asset.asset_id, w, wa, cu, m, f, w + wa + cu + m + f⟩])) ∧
    (∀ (snapC : List AssetClassRow) (snapD snapE : List StatusNameRow) (today : ℕ)
      (db : DB) (idx : ℕ) (row : ImportRow) (s : String) (asset : AssetRow)
      (acid : ℕ) (db1 : DB),
      db.assets.find? (fun a => decide (a.asset_code = row.asset_code)) = some asset →
      resolveAssetClass snapC db row.asset_class = .ok (acid, db1) →
      row.whs_score = .text s →
      (importRowStep snapC snapD snapE true today db idx row).2 =
        (some ("Row " ++ toString (idx + 1) ++ ": " ++
          ("could not convert string to float: " ++ "'" ++ s ++ "'")), false)) ∧
    (∀ (snapC : List AssetClassRow) (snapD snapE : List StatusNameRow) (today : ℕ)
      (db : DB) (idx : ℕ) (row : ImportRow) (w wa cu m : ℚ) (s : String) (asset : AssetRow)
      (acid : ℕ) (db1 : DB),
      db.assets.find? (fun a => decide (a.asset_code = row.asset_code)) = some asset →
      resolveAssetClass snapC db row.asset_class = .ok (acid, db1) →
      row.whs_score = .num w → row.water_score = .num wa → row.customer_score = .num cu →
      row.maintenance_score = .num m → row.financial_score = .text s →
      (importRowStep snapC snapD snapE true today db idx row).2 =
        (some ("Row " ++ toString (idx + 1) ++ ": " ++
          ("could not convert string to float: " ++ "'" ++ s ++ "'")), false)) := by
  refine ⟨importRowStep_create_scores, ?_, ?_, ?_, ?_, ?_⟩
  · intro snapC snapD snapE ov today db idx row s acid db1 hfresh hrc hw
    exact importRowStep_conversion_error snapC snapD snapE ov today db idx row _ acid db1
      hfresh hrc (convertScores_whs_text row s hw)
  · intro snapC snapD snapE ov today db idx row w wa cu m s acid db1 hfresh hrc hw hwa hcu hm hf
    exact importRowStep_conversion_error snapC snapD snapE ov today db idx row _ acid db1
      hfresh hrc (convertScores_financial_text row w wa cu m s hw hwa hcu hm hf)
  · intro snapC snapD snapE today db idx row w wa cu m f asset acid db1 hfind hrc hw hwa hcu hm hf
    exact importRowStep_overwrite_scores snapC snapD snapE today db idx row w wa cu m f
      asset acid db1 hfind hrc hw hwa hcu hm hf
  · intro snapC snapD snapE today db idx row s asset acid db1 hfind hrc hw
    exact importRowStep_overwrite_conversion_error snapC snapD snapE today db idx row _
      asset acid db1 hfind hrc (convertScores_whs_text row s hw)
  · intro snapC snapD snapE today db idx row w wa cu m s asset acid db1 hfind hrc hw hwa hcu hm hf
    exact importRowStep_overwrite_conversion_error snapC snapD snapE today db idx row _
      asset acid db1 hfind hrc (convertScores_financial_text row w wa cu m s hw hwa hcu hm hf)

/-- Witness for C9's amended theorem: a bad whs cell and a bad financial
cell in otherwise identical fresh rows produce the identical row-2 error;
an overwrite of the existing B-2 asset with components (-5,0,0,0,0) stores
-5 verbatim; and a bad whs cell on the overwrite branch produces the same
generic error. -/
theorem import_score_coercion_amended_witness :
    (importRowStep seededDB.asset_classes seededDB.design_statuses seededDB.env_statuses
      false 0 seededDB 1
      ⟨"N-2", "scope", "Bridges & Culverts", "General", "", "To be assigned", "Pending",
        .text "abc", .num 0, .num 0, .num 0, .num 0⟩).2 =
      (some ("Row " ++ toString (1 + 1) ++ ": " ++
        ("could not convert string to float: " ++ "'" ++ "abc" ++ "'")), false) ∧
    (importRowStep seededDB.asset_classes seededDB.design_statuses seededDB.env_statuses
      false 0 seededDB 1
      ⟨"N-2", "scope", "Bridges & Culverts", "General", "", "To be assigned", "Pending",
        .num 0, .num 0, .num 0, .num 0, .text "abc"⟩).2 =
      (some ("Row " ++ toString (1 + 1) ++ ": " ++
        ("could not convert string to float: " ++ "'" ++ "abc" ++ "'")), false) ∧
    (∃ db2, importRowStep dupScenarioDB.asset_classes dupScenarioDB.design_statuses
        dupScenarioDB.env_statuses true 0 dupScenarioDB 0
        ⟨"B-2", "scope", "Bridges & Culverts", "General", "", "To be assigned", "Pending",
          .num (-5), .num 0, .num 0, .num 0, .num 0⟩ = (db2, none, true) ∧
      ((dupScenarioDB.priority_scores.any fun r => decide (r.asset_id = 1)) = true →
        db2.priority_scores = dupScenarioDB.priority_scores.map fun r =>
          if r.asset_id = 1 then
            { r with
              whs_score := -5, water_savings_score := 0, customer_score := 0,
              maintenance_score := 0, financial_score := 0,
              total_priority_score := -5 + 0 + 0 + 0 + 0 }
          else r) ∧
      ((dupScenarioDB.priority_scores.any fun r => decide (r.asset_id = 1)) = false →
        ∃ sid, db2.priority_scores = dupScenarioDB.priority_scores ++
          [⟨sid, 1, -5, 0, 0, 0, 0, -5 + 0 + 0 + 0 + 0⟩])) ∧
    (importRowStep dupScenarioDB.asset_classes dupScenarioDB.design_statuses
      dupScenarioDB.env_statuses true 0 dupScenarioDB 0
      ⟨"B-2", "scope", "Bridges & Culverts", "General", "", "To be assigned", "Pending",
        .text "abc", .num 0, .num 0, .num 0, .num 0⟩).2 =
      (some ("Row " ++ toString (0 + 1) ++ ": " ++
        ("could not convert string to float: " ++ "'" ++ "abc" ++ "'")), false) := by
  refine ⟨?_, ?_, ?_, ?_⟩
  · exact import_score_coercion_amended.2.1 seededDB.asset_classes seededDB.design_statuses
      seededDB.env_statuses false 0 seededDB 1 _ "abc" 1 seededDB (by decide)
      (by simp +decide [resolveAssetClass, seededDB]) rfl
  · exact import_score_coercion_amended.2.2.1 seededDB.asset_classes seededDB.design_statuses
      seededDB.env_statuses false 0 seededDB 1 _ 0 0 0 0 "abc" 1 seededDB (by decide)
      (by simp +decide [resolveAssetClass, seededDB]) rfl rfl rfl rfl rfl
  · exact import_score_coercion_amended.2.2.2.1 dupScenarioDB.asset_classes
      dupScenarioDB.design_statuses dupScenarioDB.env_statuses 0 dupScenarioDB 0 _
      (-5) 0 0 0 0 ⟨1, "B-2", 1, ""⟩ 1 dupScenarioDB (by decide)
      (by simp +decide [resolveAssetClass, dupScenarioDB, seededDB]) rfl rfl rfl rfl rfl
  · exact import_score_coercion_amended.2.2.2.2.1 dupScenarioDB.asset_classes
      dupScenarioDB.design_statuses dupScenarioDB.env_statuses 0 dupScenarioDB 0 _
      "abc" ⟨1, "B-2", 1, ""⟩ 1 dupScenarioDB (by decide)
      (by simp +decide [resolveAssetClass, dupScenarioDB, seededDB]) rfl

lemma importRowStep_duplicate (snapC : List AssetClassRow) (snapD snapE : List StatusNameRow)
    (today : ℕ) (db : DB) (idx : ℕ) (row : ImportRow) (a : AssetRow)
    (hfind : db.assets.find? (fun x => decide (x.asset_code = row.asset_code)) = some a) :
    importRowStep snapC snapD snapE false today db idx row =
      (db, some ("Row " ++ toString (idx + 1) ++ ": " ++ "Asset " ++ row.asset_code ++
        " already exists. Use overwrite option to replace."), false) := by
  unfold importRowStep
  rw [hfind]
  rfl



/-- C6: a duplicate-code row under overwrite=False fails with exactly the
"Row N: Asset <code> already exists. Use overwrite option to replace."
error (1-based row number), performs no writes for that row, and never
stops the following rows from being processed; the 3-row batch whose second
row is such a duplicate yields success_count 2 and exactly that error. -/
theorem import_rows_order_and_duplicates :
    (∀ (snapC : List AssetClassRow) (snapD snapE : List StatusNameRow) (today idx : ℕ)
      (db : DB) (row : ImportRow) (rest : List ImportRow) (a : AssetRow),
      db.assets.find? (fun x => decide (x.asset_code = row.asset_code)) = some a →
      importLoop snapC snapD snapE false today idx db (row :: rest) =
        ((importLoop snapC snapD snapE false today (idx + 1) db rest).1,
         ("Row " ++ toString (idx + 1) ++ ": " ++ "Asset " ++ row.asset_code ++
           " already exists. Use overwrite option to replace.") ::
           (importLoop snapC snapD snapE false today (idx + 1) db rest).2.1,
         (importLoop snapC snapD snapE false today (idx + 1) db rest).2.2)) ∧
    (import_projects_from_spreadsheet dupScenarioDB false 0
        [importedRow "B-1", importedRow "B-2", importedRow "B-3"]).1 = 2 ∧
    (import_projects_from_spreadsheet dupScenarioDB false 0
        [importedRow "B-1", importedRow "B-2", importedRow "B-3"]).2.1 =
      ["Row 2: Asset B-2 already exists. Use overwrite option to replace."] := by
  refine ⟨?_, ?_, ?_⟩
  · intro snapC snapD snapE today idx db row rest a hdup
    show (let step := importRowStep snapC snapD snapE false today db idx row
          let restRes := importLoop snapC snapD snapE false today (idx + 1) step.1 rest
          ((if step.2.2 then 1 else 0) + restRes.1,
           (match step.2.1 with | some e => [e] | none => []) ++ restRes.2.1,
           restRes.2.2)) = _
    rw [importRowStep_duplicate snapC snapD snapE today db idx row a hdup]
    simp
  · simp +decide [import_projects_from_spreadsheet, importLoop, importRowStep, dupScenarioDB,
      seededDB, importedRow, resolveAssetClass, resolveAssetType, resolveStatusId,
      convertScores, floatOfCell]
  · simp +decide [import_projects_from_spreadsheet, importLoop, importRowStep, dupScenarioDB,
      seededDB, importedRow, resolveAssetClass, resolveAssetType, resolveStatusId,
      convertScores, floatOfCell]

/-- Witness for C6's general part, at the scenario's duplicate second row. -/
theorem import_rows_order_and_duplicates_witness :
    dupScenarioDB.assets.find?
        (fun x => decide (x.asset_code = (importedRow "B-2").asset_code)) =
      some ⟨1, "B-2", 1, ""⟩ ∧
    importLoop dupScenarioDB.asset_classes dupScenarioDB.design_statuses
        dupScenarioDB.env_statuses false 0 1 dupScenarioDB [importedRow "B-2"] =
      ((importLoop dupScenarioDB.asset_classes dupScenarioDB.design_statuses
          dupScenarioDB.env_statuses false 0 2 dupScenarioDB []).1,
       ("Row " ++ toString (1 + 1) ++ ": " ++ "Asset " ++ (importedRow "B-2").asset_code ++
         " already exists. Use overwrite option to replace.") ::
         (importLoop dupScenarioDB.asset_classes dupScenarioDB.design_statuses
            dupScenarioDB.env_statuses false 0 2 dupScenarioDB []).2.1,
       (importLoop dupScenarioDB.asset_classes dupScenarioDB.design_statuses
          dupScenarioDB.env_statuses false 0 2 dupScenarioDB []).2.2) :=
  ⟨by decide,
   import_rows_order_and_duplicates.1 dupScenarioDB.asset_classes dupScenarioDB.design_statuses
     dupScenarioDB.env_statuses 0 1 dupScenarioDB (importedRow "B-2") [] ⟨1, "B-2", 1, ""⟩
     (by decide)⟩


/-- C8 counterexample: with type "General" already present under class 1,
an imported row typed "GENERAL" inserts a second row — the asset type
lookup is case-sensitive, and two case-insensitive duplicate reference rows
now exist in the same scope. -/
theorem resolve_or_create_duplicates_cex :
    ((import_projects_from_spreadsheet dupScenarioDB false 0 [caseCloneRow]).2.2).asset_types =
      [⟨1, 1, "General"⟩, ⟨2, 1, "GENERAL"⟩] ∧
    strLower "General" = strLower "GENERAL" ∧ "General" ≠ "GENERAL" := by
  refine ⟨?_, by decide, by decide⟩
  simp +decide [import_projects_from_spreadsheet, importLoop, importRowStep, dupScenarioDB,
    seededDB, caseCloneRow, resolveAssetClass, resolveAssetType, resolveStatusId,
    convertScores, floatOfCell]

lemma resolveAssetClass_error_state (snapC : List AssetClassRow) (db : DB) (name : String)
    (msg : String) (dbe : DB) (h : resolveAssetClass snapC db name = .error (msg, dbe)) :
    dbe = db := by
  unfold resolveAssetClass at h
  split at h
  · exact absurd h (by simp)
  · split at h
    · exact (((Prod.mk.injEq _ _ _ _).mp ((Except.error.injEq _ _).mp h)).2).symm
    · exact absurd h (by simp)

lemma resolveAssetClass_ok_design_env (snapC : List AssetClassRow) (db : DB) (name : String)
    (acid : ℕ) (db1 : DB) (h : resolveAssetClass snapC db name = .ok (acid, db1)) :
    db1.design_statuses = db.design_statuses ∧ db1.env_statuses = db.env_statuses := by
  unfold resolveAssetClass at h
  split at h
  · have h2 := (Prod.mk.injEq _ _ _ _).mp ((Except.ok.injEq _ _).mp h)
    rw [← h2.2]
    exact ⟨rfl, rfl⟩
  · split at h
    · exact absurd h (by simp)
    · have h2 := (Prod.mk.injEq _ _ _ _).mp ((Except.ok.injEq _ _).mp h)
      rw [← h2.2]
      exact ⟨rfl, rfl⟩

lemma resolveAssetType_design_env (db : DB) (acid : ℕ) (name : String) :
    (resolveAssetType db acid name).2.design_statuses = db.design_statuses ∧
      (resolveAssetType db acid name).2.env_statuses = db.env_statuses := by
  unfold resolveAssetType
  split <;> exact ⟨rfl, rfl⟩

/-- One import row never writes to the design_status or env_status tables. -/
lemma importRowStep_design_env (snapC : List AssetClassRow) (snapD snapE : List StatusNameRow)
    (ov : Bool) (today : ℕ) (db : DB) (idx : ℕ) (row : ImportRow) :
    (importRowStep snapC snapD snapE ov today db idx row).1.design_statuses =
        db.design_statuses ∧
      (importRowStep snapC snapD snapE ov today db idx row).1.env_statuses =
        db.env_statuses := by
  unfold importRowStep
  cases hfind : db.assets.find? (fun a => decide (a.asset_code = row.asset_code)) with
  | some asset =>
      dsimp only
      cases ov with
      | false => exact ⟨rfl, rfl⟩
      | true =>
          rw [if_neg (by simp)]
          cases hrc : resolveAssetClass snapC db row.asset_class with
          | error e =>
              obtain ⟨msg, dbe⟩ := e
              rw [resolveAssetClass_error_state snapC db row.asset_class msg dbe hrc]
              exact ⟨rfl, rfl⟩
          | ok pr =>
              obtain ⟨acid, db1⟩ := pr
              dsimp only
              obtain ⟨hd1, he1⟩ := resolveAssetClass_ok_design_env snapC db row.asset_class
                acid db1 hrc
              obtain ⟨hd2, he2⟩ := resolveAssetType_design_env db1 acid row.asset_type
              cases hcv : convertScores row with
              | error msg => exact ⟨by rw [hd2, hd1], by rw [he2, he1]⟩
              | ok q =>
                  obtain ⟨w, wa, cu, m, f⟩ := q
                  dsimp only
                  split <;> exact ⟨by rw [hd2, hd1], by rw [he2, he1]⟩
  | none =>
      dsimp only
      cases hrc : resolveAssetClass snapC db row.asset_class with
      | error e =>
          obtain ⟨msg, dbe⟩ := e
          rw [resolveAssetClass_error_state snapC db row.asset_class msg dbe hrc]
          exact ⟨rfl, rfl⟩
      | ok pr =>
          obtain ⟨acid, db1⟩ := pr
          dsimp only
          obtain ⟨hd1, he1⟩ := resolveAssetClass_ok_design_env snapC db row.asset_class
            acid db1 hrc
          obtain ⟨hd2, he2⟩ := resolveAssetType_design_env db1 acid row.asset_type
          cases hcv : convertScores row with
          | error msg => exact ⟨by rw [hd2, hd1], by rw [he2, he1]⟩
          | ok q =>
              obtain ⟨w, wa, cu, m, f⟩ := q
              dsimp only
              split <;> exact ⟨by rw [hd2, hd1], by rw [he2, he1]⟩

/-- The whole import batch never writes to design_status or env_status. -/
lemma importLoop_design_env (snapC : List AssetClassRow) (snapD snapE : List StatusNameRow)
    (ov : Bool) (today : ℕ) (rows : List ImportRow) : ∀ (idx : ℕ) (db : DB),
    (importLoop snapC snapD snapE ov today idx db rows).2.2.design_statuses =
        db.design_statuses ∧
      (importLoop snapC snapD snapE ov today idx db rows).2.2.env_statuses =
        db.env_statuses := by
  induction rows with
  | nil => exact fun idx db => ⟨rfl, rfl⟩
  | cons row rest ih =>
      intro idx db
      obtain ⟨hd, he⟩ := importRowStep_design_env snapC snapD snapE ov today db idx row
      obtain ⟨hd2, he2⟩ := ih (idx + 1)
        (importRowStep snapC snapD snapE ov today db idx row).1
      exact ⟨by rw [importLoop, hd2, hd], by rw [importLoop, he2, he]⟩


/-- C8 (amended): the import's reference resolution behaves per path:
the asset class is looked up case-insensitively against the snapshot taken
at batch start and, on a miss not colliding byte-exactly, inserted verbatim;
the asset type is looked up by case-sensitive exact match scoped to the
parent class and inserted verbatim on a miss; design and environmental
statuses are looked up case-insensitively in their snapshots and fall back
to id 1 on a miss — the import never writes those two tables.  Because the
asset type match is case-sensitive, case-insensitive duplicate rows can be
created in the same scope (see the counterexample). -/
theorem resolve_or_create_amended :
    (∀ (snapC : List AssetClassRow) (db : DB) (name : String) (a : AssetClassRow),
      snapC.find? (fun x => decide (strLower x.class_name = strLower name)) = some a →
      resolveAssetClass snapC db name = .ok (a.asset_class_id, db)) ∧
    (∀ (snapC : List AssetClassRow) (db : DB) (name : String),
      snapC.find? (fun x => decide (strLower x.class_name = strLower name)) = none →
      (db.asset_classes.any fun x => decide (x.class_name = name)) = false →
      resolveAssetClass snapC db name = .ok (db.next_class_id,
        { db with asset_classes := db.asset_classes ++ [⟨db.next_class_id, name⟩],
                  next_class_id := db.next_class_id + 1 })) ∧
    (∀ (db : DB) (acid : ℕ) (name : String) (t : AssetTypeRow),
      db.asset_types.find?
          (fun x => decide (x.type_name = name ∧ x.asset_class_id = acid)) = some t →
      resolveAssetType db acid name = (t.asset_type_id, db)) ∧
    (∀ (db : DB) (acid : ℕ) (name : String),
      db.asset_types.find?
          (fun x => decide (x.type_name = name ∧ x.asset_class_id = acid)) = none →
      resolveAssetType db acid name = (db.next_type_id,
        { db with asset_types := db.asset_types ++ [⟨db.next_type_id, acid, name⟩],
                  next_type_id := db.next_type_id + 1 })) ∧
    (∀ (snap : List StatusNameRow) (name : String) (r : StatusNameRow),
      snap.find? (fun x => decide (strLower x.status_name = strLower name)) = some r →
      resolveStatusId snap name = r.status_id) ∧
    (∀ (snap : List StatusNameRow) (name : String),
      snap.find? (fun x => decide (strLower x.status_name = strLower name)) = none →
      resolveStatusId snap name = 1) ∧
    (∀ (snapC : List AssetClassRow) (snapD snapE : List StatusNameRow) (ov : Bool)
      (today : ℕ) (rows : List ImportRow) (idx : ℕ) (db : DB),
      (importLoop snapC snapD snapE ov today idx db rows).2.2.design_statuses =
          db.design_statuses ∧
        (importLoop snapC snapD snapE ov today idx db rows).2.2.env_statuses =
          db.env_statuses) := by
  refine ⟨?_, ?_, ?_, ?_, ?_, ?_, ?_⟩
  · intro snapC db name a h
    unfold resolveAssetClass
    rw [h]
  · intro snapC db name h hn
    unfold resolveAssetClass
    rw [h]
    dsimp only
    rw [hn]
    rfl
  · intro db acid name t h
    unfold resolveAssetType
    rw [h]
  · intro db acid name h
    unfold resolveAssetType
    rw [h]
  · intro snap name r h
    unfold resolveStatusId
    rw [h]
  · intro snap name h
    unfold resolveStatusId
    rw [h]
  · intro snapC snapD snapE ov today rows idx db
    exact importLoop_design_env snapC snapD snapE ov today rows idx db

/-- Witness for C8's amended theorem: the case-sensitive asset type lookup
misses "GENERAL" although "General" exists under class 1, and inserts it
verbatim. -/
theorem resolve_or_create_amended_witness :
    dupScenarioDB.asset_types.find?
        (fun x => decide (x.type_name = "GENERAL" ∧ x.asset_class_id = 1)) = none ∧
    resolveAssetType dupScenarioDB 1 "GENERAL" = (dupScenarioDB.next_type_id,
      { dupScenarioDB with
        asset_types := dupScenarioDB.asset_types ++
          [⟨dupScenarioDB.next_type_id, 1, "GENERAL"⟩],
        next_type_id := dupScenarioDB.next_type_id + 1 }) :=
  ⟨by decide,
   resolve_or_create_amended.2.2.2.1 dupScenarioDB 1 "GENERAL" (by decide)⟩


/-! ### Lemmas on the current-status derivation -/

lemma maxStatusRow_mem : ∀ (l : List StatusHistoryRow) (r : StatusHistoryRow),
    maxStatusRow l = some r → r ∈ l := by
  intro l
  induction l with
  | nil => intro r h; exact absurd h (by simp [maxStatusRow])
  | cons a t ih =>
      intro r h
      rw [maxStatusRow] at h
      cases ht : maxStatusRow t with
      | none => rw [ht] at h; exact (Option.some.injEq _ _).mp h ▸ List.mem_cons_self a t
      | some b =>
          rw [ht] at h
          dsimp only at h
          by_cases hc : shLt a b
          · rw [if_pos hc] at h
            exact List.mem_cons_of_mem a (ih r (((Option.some.injEq _ _).mp h) ▸ ht))
          · rw [if_neg hc] at h
            exact ((Option.some.injEq _ _).mp h) ▸ List.mem_cons_self a t

lemma maxStatusRow_cons (a : StatusHistoryRow) (t : List StatusHistoryRow) :
    maxStatusRow (a :: t) = match maxStatusRow t with
      | none => some a
      | some b => if shLt a b then some b else some a := by
  rw [maxStatusRow]

lemma maxStatusRow_cons_ne_none (a : StatusHistoryRow) (t : List StatusHistoryRow) :
    maxStatusRow (a :: t) ≠ none := by
  rw [maxStatusRow_cons]
  cases maxStatusRow t with
  | none => simp
  | some b => dsimp only; split <;> simp

lemma maxStatusRow_max : ∀ (l : List StatusHistoryRow) (r : StatusHistoryRow),
    maxStatusRow l = some r → ∀ s ∈ l, s.status_date ≤ r.status_date := by
  intro l
  induction l with
  | nil => intro r h; exact absurd h (by simp [maxStatusRow])
  | cons a t ih =>
      intro r h s hs
      rw [maxStatusRow_cons] at h
      cases ht : maxStatusRow t with
      | none =>
          rw [ht] at h
          have ha := (Option.some.injEq _ _).mp h
          cases hs with
          | head => rw [← ha]
          | tail _ hmem =>
              cases t with
              | nil => cases hmem
              | cons x u => exact absurd ht (maxStatusRow_cons_ne_none x u)
      | some b =>
          rw [ht] at h
          dsimp only at h
          by_cases hc : shLt a b
          · rw [if_pos hc] at h
            have hb := (Option.some.injEq _ _).mp h
            cases hs with
            | head =>
                rw [← hb]
                rcases hc with hlt | ⟨heq, _⟩
                · exact le_of_lt hlt
                · exact le_of_eq heq
            | tail _ hmem => exact ih r (hb ▸ ht) s hmem
          · rw [if_neg hc] at h
            have ha := (Option.some.injEq _ _).mp h
            cases hs with
            | head => rw [← ha]
            | tail _ hmem =>
                have hsb := ih b ht s hmem
                unfold shLt at hc
                rw [← ha]
                omega

lemma maxStatusRow_isSome (l : List StatusHistoryRow) (r : StatusHistoryRow) (h : r ∈ l) :
    ∃ cur, maxStatusRow l = some cur := by
  cases l with
  | nil => cases h
  | cons a t =>
      rw [maxStatusRow]
      cases maxStatusRow t with
      | none => exact ⟨a, rfl⟩
      | some b =>
          dsimp only
          by_cases hc : shLt a b
          · exact ⟨b, by rw [if_pos hc]⟩
          · exact ⟨a, by rw [if_neg hc]⟩

lemma maxStatusRow_append_one (l : List StatusHistoryRow) (x : StatusHistoryRow) :
    maxStatusRow (l ++ [x]) = match maxStatusRow l with
      | none => some x
      | some b => if shLt b x then some x else some b := by
  induction l with
  | nil => rfl
  | cons a t ih =>
      show maxStatusRow (a :: (t ++ [x])) = _
      rw [maxStatusRow_cons, ih, maxStatusRow_cons]
      cases ht : maxStatusRow t with
      | none => dsimp only
      | some b =>
          dsimp only
          by_cases hbx : shLt b x <;> by_cases hab : shLt a b
          · rw [if_pos hbx, if_pos hab]
            dsimp only
            rw [if_pos (by unfold shLt at hab hbx ⊢; omega), if_pos hbx]
          · rw [if_pos hbx, if_neg hab]
          · rw [if_neg hbx, if_pos hab]
            dsimp only
            rw [if_pos hab, if_neg hbx]
          · rw [if_neg hbx, if_neg hab]
            dsimp only
            rw [if_neg hab, if_neg (by unfold shLt at hab hbx ⊢; omega)]



/-- C5 counterexample: the dashboard "active projects" KPI counts this
project because SOME history row is IN_PROGRESS, although its current
status is COMPLETED — the KPI does not filter on current_status. -/
theorem current_status_kpi_cex :
    active_projects_kpi statusCexDB = 1 ∧
    specCurrentStatusCount statusCexDB ["IN_PROGRESS", "DESIGN"] = 0 ∧
    currentStatusCode statusCexDB 1 = some "COMPLETED" := by
  decide

/-- C5 (amended): the status-distribution query's current status row is the
one with the maximum status_date for the project (date ties modelled as
most-recently-inserted wins, the tie order SQLite itself leaves
unspecified), so appending a row dated strictly earlier than the current
maximum never changes it; but the dashboard active/completed KPI counts do
NOT filter on current status — they count projects having at least one
history row with a matching code, which always dominates the
current-status count. -/
theorem current_status_amended :
    (∀ (hist : List StatusHistoryRow) (pid : ℕ) (r : StatusHistoryRow),
      r ∈ hist → r.project_id = pid →
      ∃ cur, currentStatusRow hist pid = some cur ∧ cur.project_id = pid ∧ cur ∈ hist ∧
        ∀ s ∈ hist, s.project_id = pid → s.status_date ≤ cur.status_date) ∧
    (∀ (hist : List StatusHistoryRow) (pid : ℕ) (rnew cur : StatusHistoryRow),
      currentStatusRow hist pid = some cur → rnew.status_date < cur.status_date →
      currentStatusRow (hist ++ [rnew]) pid = some cur) ∧
    (∀ (db : DB) (codes : List String), (db.projects.map fun p => p.project_id).Nodup →
      specCurrentStatusCount db codes ≤ countProjectsWithAnyStatus db codes) := by
  refine ⟨?_, ?_, ?_⟩
  · intro hist pid r hr hpid
    have hrf : r ∈ hist.filter fun h => decide (h.project_id = pid) :=
      List.mem_filter.mpr ⟨hr, by simp [hpid]⟩
    obtain ⟨cur, hcur⟩ := maxStatusRow_isSome _ r hrf
    have hmem := maxStatusRow_mem _ cur hcur
    have hcurf := List.mem_filter.mp hmem
    refine ⟨cur, hcur, by simpa using hcurf.2, hcurf.1, ?_⟩
    intro s hs hspid
    exact maxStatusRow_max _ cur hcur s
      (List.mem_filter.mpr ⟨hs, by simp [hspid]⟩)
  · intro hist pid rnew cur hcur hdate
    unfold currentStatusRow at hcur ⊢
    rw [List.filter_append]
    by_cases hp : rnew.project_id = pid
    · have hone : List.filter (fun h => decide (h.project_id = pid)) [rnew] = [rnew] := by
        simp [hp]
      rw [hone, maxStatusRow_append_one, hcur]
      dsimp only
      rw [if_neg (by unfold shLt; omega)]
    · have hnil : List.filter (fun h => decide (h.project_id = pid)) [rnew] = [] := by
        simp [hp]
      rw [hnil, List.append_nil, hcur]
  · intro db codes hnd
    unfold specCurrentStatusCount countProjectsWithAnyStatus
    have himp : ∀ p : ProjectRow,
        ((currentStatusCode db p.project_id).any fun c => codes.contains c) = true →
        (db.status_history.any fun h =>
          decide (h.project_id = p.project_id) && statusCodeMatches db codes h) = true := by
      intro p hcs
      cases hc : currentStatusCode db p.project_id with
      | none => rw [hc] at hcs; exact absurd hcs (by simp)
      | some c =>
          rw [hc] at hcs
          unfold currentStatusCode at hc
          cases hcur : currentStatusRow db.status_history p.project_id with
          | none => rw [hcur] at hc; exact absurd hc (by simp)
          | some cur =>
              rw [hcur] at hc
              simp only [Option.some_bind] at hc
              cases hfs : db.project_statuses.find? fun s =>
                  decide (s.project_status_id = cur.project_status_id) with
              | none => rw [hfs] at hc; exact absurd hc (by simp)
              | some srow =>
                  rw [hfs] at hc
                  have hcode : srow.status_code = c := by simpa using hc
                  have hmem := maxStatusRow_mem _ cur hcur
                  have hcurf := List.mem_filter.mp hmem
                  rw [List.any_eq_true]
                  refine ⟨cur, hcurf.1, ?_⟩
                  rw [Bool.and_eq_true]
                  refine ⟨hcurf.2, ?_⟩
                  unfold statusCodeMatches
                  rw [hfs]
                  simpa [hcode] using hcs
    have hsub := List.monotone_filter_right db.projects himp
    have hmapsub := hsub.map fun p : ProjectRow => p.project_id
    have hfsub : List.Sublist (db.projects.filter fun p =>
        db.status_history.any fun h =>
          decide (h.project_id = p.project_id) && statusCodeMatches db codes h)
        db.projects := List.filter_sublist db.projects
    have hnd2 : ((db.projects.filter fun p => db.status_history.any fun h =>
        decide (h.project_id = p.project_id) && statusCodeMatches db codes h).map
          fun p => p.project_id).Nodup :=
      (hfsub.map (fun p : ProjectRow => p.project_id)).nodup hnd
    rw [List.dedup_eq_self.mpr hnd2]
    calc (db.projects.filter fun p =>
            (currentStatusCode db p.project_id).any fun c => codes.contains c).length
        = ((db.projects.filter fun p =>
            (currentStatusCode db p.project_id).any fun c => codes.contains c).map
              fun p => p.project_id).length := (List.length_map _ _).symm
      _ ≤ _ := hmapsub.length_le

/-- Witness for C5's amended theorem, at the counterexample state. -/
theorem current_status_amended_witness :
    (∃ cur, currentStatusRow statusCexDB.status_history 1 = some cur ∧
      cur.project_id = 1 ∧ cur ∈ statusCexDB.status_history ∧
      ∀ s ∈ statusCexDB.status_history, s.project_id = 1 →
        s.status_date ≤ cur.status_date) ∧
    specCurrentStatusCount statusCexDB ["IN_PROGRESS", "DESIGN"] ≤
      countProjectsWithAnyStatus statusCexDB ["IN_PROGRESS", "DESIGN"] :=
  ⟨current_status_amended.1 statusCexDB.status_history 1 ⟨1, 1, 4, 1, ""⟩
      (by decide) rfl,
   current_status_amended.2.2 statusCexDB ["IN_PROGRESS", "DESIGN"] (by decide)⟩



/-- C7: the recompute is NOT transactional.  When the store rejects the
second UPDATE, the error branch (line 2903) reports and returns 0, but the
first asset's already-issued UPDATE is not rolled back: the connection
state is half-applied — its totals are [10, 0], differing both from the
prior state's [0, 0] and from the fully recomputed [10, 20]. -/
theorem recalc_failure_not_rolled_back :
    (recalculate_priority_scores_failing recalcFailDB 1).2.2 = true ∧
    (recalculate_priority_scores_failing recalcFailDB 1).2.1 = 0 ∧
    ((recalculate_priority_scores_failing recalcFailDB 1).1.priority_scores.map
      fun r => r.total_priority_score) = [10, 0] ∧
    (recalcFailDB.priority_scores.map fun r => r.total_priority_score) = [0, 0] ∧
    ((recalculate_priority_scores recalcFailDB).1.priority_scores.map
      fun r => r.total_priority_score) = [10, 20] ∧
    (recalculate_priority_scores_failing recalcFailDB 1).1 ≠ recalcFailDB ∧
    (recalculate_priority_scores_failing recalcFailDB 1).1 ≠
      (recalculate_priority_scores recalcFailDB).1 := by
  have h1 : ((recalculate_priority_scores_failing recalcFailDB 1).1.priority_scores.map
      fun r => r.total_priority_score) = [10, 0] := by
    simp +decide [recalculate_priority_scores_failing, recalcTotalsWithFailure, recalcFailDB,
      seededDB, weightedTotal, criterionComponent, containsSub, strUpper, sqlUpdateLoop]
  have h2 : (recalcFailDB.priority_scores.map fun r => r.total_priority_score) = [0, 0] := by
    simp +decide [recalcFailDB, seededDB]
  have h3 : ((recalculate_priority_scores recalcFailDB).1.priority_scores.map
      fun r => r.total_priority_score) = [10, 20] := by
    simp +decide [recalculate_priority_scores, recalcMid, recalcTotalsTable, recalcSorted,
      recalcFailDB, seededDB, weightedTotal, criterionComponent, containsSub, strUpper,
      sqlUpdateLoop, rankingRows, assignRanks]
  refine ⟨by simp +decide [recalculate_priority_scores_failing, recalcTotalsWithFailure,
      recalcFailDB, seededDB, weightedTotal, criterionComponent, containsSub, strUpper,
      sqlUpdateLoop],
    by simp +decide [recalculate_priority_scores_failing, recalcTotalsWithFailure,
      recalcFailDB, seededDB, weightedTotal, criterionComponent, containsSub, strUpper,
      sqlUpdateLoop],
    h1, h2, h3, ?_, ?_⟩
  · intro heq
    rw [heq] at h1
    rw [h1] at h2
    exact absurd h2 (by norm_num)
  · intro heq
    rw [heq] at h1
    rw [h1] at h3
    exact absurd h3 (by norm_num)

/-! ### Generic facts about keyed UPDATE loops -/

lemma sqlUpdateLoop_char {α β : Type} (key : α → ℕ) (set2 : α → β → α)
    (hkey : ∀ a b, key (set2 a b) = key a)
    (hset : ∀ a b b2, set2 (set2 a b) b2 = set2 a b2) :
    ∀ (updates : List (ℕ × β)) (table : List α),
    sqlUpdateLoop key set2 updates table = table.map fun a =>
      match updates.reverse.find? (fun u => decide (u.1 = key a)) with
      | some u => set2 a u.2
      | none => a := by
  intro updates
  induction updates with
  | nil =>
      intro table
      simp [sqlUpdateLoop]
  | cons u us ih =>
      intro table
      show sqlUpdateLoop key set2 us
          (table.map fun a => if key a = u.1 then set2 a u.2 else a) = _
      rw [ih, List.map_map]
      apply List.map_congr_left
      intro a _
      dsimp only [Function.comp]
      have hka : key (if key a = u.1 then set2 a u.2 else a) = key a := by
        split
        · exact hkey a u.2
        · rfl
      rw [hka, List.reverse_cons, List.find?_append]
      cases hfind : us.reverse.find? (fun v => decide (v.1 = key a)) with
      | some v =>
          dsimp only [Option.or]
          split
          · exact hset a u.2 v.2
          · rfl
      | none =>
          dsimp only [Option.or]
          by_cases hu : u.1 = key a
          · rw [List.find?_cons_of_pos _ (by simpa using hu)]
            rw [if_pos hu.symm]
          · rw [List.find?_cons_of_neg _ (by simpa using hu)]
            rw [List.find?_nil, if_neg (fun hh => hu hh.symm)]

lemma map_pair_find_self {α β : Type} (key : α → ℕ) (g : α → β) :
    ∀ (l : List α), (l.map key).Nodup → ∀ a ∈ l,
    (l.map fun x => (key x, g x)).reverse.find? (fun u => decide (u.1 = key a)) =
      some (key a, g a) := by
  intro l
  induction l with
  | nil => intro _ a ha; cases ha
  | cons b t ih =>
      intro hnd a ha
      rw [List.map_cons, List.reverse_cons, List.find?_append]
      rcases List.mem_cons.mp ha with rfl | hat
      · have hnone : (t.map fun x => (key x, g x)).reverse.find?
            (fun u => decide (u.1 = key a)) = none := by
          rw [List.find?_eq_none]
          intro u hu
          rw [List.mem_reverse, List.mem_map] at hu
          obtain ⟨x, hx, rfl⟩ := hu
          have hne : key x ≠ key a := by
            intro hc
            exact (List.nodup_cons.mp hnd).1 (hc ▸ List.mem_map_of_mem key hx)
          simpa using hne
        rw [hnone]
        dsimp only [Option.or]
        rw [List.find?_cons_of_pos _ (by simp)]
      · rw [ih (List.nodup_cons.mp hnd).2 a hat]
        rfl

lemma sqlUpdateLoop_self {α β : Type} (key : α → ℕ) (set2 : α → β → α) (g : α → β)
    (hkey : ∀ a b, key (set2 a b) = key a)
    (hset : ∀ a b b2, set2 (set2 a b) b2 = set2 a b2)
    (table : List α) (hnd : (table.map key).Nodup) :
    sqlUpdateLoop key set2 (table.map fun a => (key a, g a)) table =
      table.map fun a => set2 a (g a) := by
  rw [sqlUpdateLoop_char key set2 hkey hset]
  apply List.map_congr_left
  intro a ha
  rw [map_pair_find_self key g table hnd a ha]

/-- C3: for every asset with a PriorityScore row, the weighted recompute
sets its new total to the sum over all criteria of component value times
weight_pct/100, where the component is picked by case-insensitive substring
matching on the criterion name — WHS/SAFETY → whs, then WATER →
water_savings, CUSTOMER → customer, MAINTENANCE → maintenance,
FINANCIAL/COST/ROI → financial, and an unmatched name contributes the
average of the five components. -/
theorem weighted_recompute_totals (db : DB) (hcrit : db.criteria ≠ [])
    (hnd : (db.priority_scores.map fun r => r.score_id).Nodup) :
    (recalculate_priority_scores db).1.priority_scores =
      db.priority_scores.map (fun r =>
        { r with total_priority_score := weightedTotal db.criteria r }) ∧
    (∀ (name : String) (r : PriorityScoreRow),
      (containsSub (strUpper name) "WHS" || containsSub (strUpper name) "SAFETY") = true →
      criterionComponent name r = r.whs_score) ∧
    (∀ (name : String) (r : PriorityScoreRow),
      (containsSub (strUpper name) "WHS" || containsSub (strUpper name) "SAFETY") = false →
      containsSub (strUpper name) "WATER" = true →
      criterionComponent name r = r.water_savings_score) ∧
    (∀ (name : String) (r : PriorityScoreRow),
      (containsSub (strUpper name) "WHS" || containsSub (strUpper name) "SAFETY") = false →
      containsSub (strUpper name) "WATER" = false →
      containsSub (strUpper name) "CUSTOMER" = true →
      criterionComponent name r = r.customer_score) ∧
    (∀ (name : String) (r : PriorityScoreRow),
      (containsSub (strUpper name) "WHS" || containsSub (strUpper name) "SAFETY") = false →
      containsSub (strUpper name) "WATER" = false →
      containsSub (strUpper name) "CUSTOMER" = false →
      containsSub (strUpper name) "MAINTENANCE" = true →
      criterionComponent name r = r.maintenance_score) ∧
    (∀ (name : String) (r : PriorityScoreRow),
      (containsSub (strUpper name) "WHS" || containsSub (strUpper name) "SAFETY") = false →
      containsSub (strUpper name) "WATER" = false →
      containsSub (strUpper name) "CUSTOMER" = false →
      containsSub (strUpper name) "MAINTENANCE" = false →
      (containsSub (strUpper name) "FINANCIAL" || containsSub (strUpper name) "COST" ||
        containsSub (strUpper name) "ROI") = true →
      criterionComponent name r = r.financial_score) ∧
    (∀ (name : String) (r : PriorityScoreRow),
      (containsSub (strUpper name) "WHS" || containsSub (strUpper name) "SAFETY") = false →
      containsSub (strUpper name) "WATER" = false →
      containsSub (strUpper name) "CUSTOMER" = false →
      containsSub (strUpper name) "MAINTENANCE" = false →
      (containsSub (strUpper name) "FINANCIAL" || containsSub (strUpper name) "COST" ||
        containsSub (strUpper name) "ROI") = false →
      criterionComponent name r = (r.whs_score + r.water_savings_score + r.customer_score +
        r.maintenance_score + r.financial_score) / 5) := by
  refine ⟨?_, ?_, ?_, ?_, ?_, ?_, ?_⟩
  · rw [recalculate_priority_scores, if_neg (by simpa using hcrit)]
    show recalcTotalsTable db = _
    exact sqlUpdateLoop_self (fun r => r.score_id)
      (fun r t => { r with total_priority_score := t })
      (fun r => weightedTotal db.criteria r)
      (fun _ _ => rfl) (fun _ _ _ => rfl) db.priority_scores hnd
  · intro name r h
    simp [criterionComponent, h]
  · intro name r h1 h2
    simp [criterionComponent, h1, h2]
  · intro name r h1 h2 h3
    simp [criterionComponent, h1, h2, h3]
  · intro name r h1 h2 h3 h4
    simp [criterionComponent, h1, h2, h3, h4]
  · intro name r h1 h2 h3 h4 h5
    simp [criterionComponent, h1, h2, h3, h4, h5]
  · intro name r h1 h2 h3 h4 h5
    simp [criterionComponent, h1, h2, h3, h4, h5]

/-- Witness for C3 at a two-asset state with the single criterion WHS@100,
plus concrete component picks for a matched and an unmatched name. -/
theorem weighted_recompute_totals_witness :
    (recalculate_priority_scores recalcFailDB).1.priority_scores =
      recalcFailDB.priority_scores.map (fun r =>
        { r with total_priority_score := weightedTotal recalcFailDB.criteria r }) ∧
    criterionComponent "Maintenance/Ops" ⟨1, 1, 10, 0, 0, 4, 0, 0⟩ = 4 ∧
    criterionComponent "Community Benefit" ⟨1, 1, 1, 2, 3, 4, 5, 0⟩ =
      (1 + 2 + 3 + 4 + 5) / 5 :=
  ⟨(weighted_recompute_totals recalcFailDB (by decide) (by decide)).1,
   (weighted_recompute_totals recalcFailDB (by decide) (by decide)).2.2.2.2.1
     "Maintenance/Ops" ⟨1, 1, 10, 0, 0, 4, 0, 0⟩ (by decide) (by decide) (by decide)
     (by decide),
   (weighted_recompute_totals recalcFailDB (by decide) (by decide)).2.2.2.2.2.2
     "Community Benefit" ⟨1, 1, 1, 2, 3, 4, 5, 0⟩ (by decide) (by decide) (by decide)
     (by decide) (by decide)⟩

/-! ### Lemmas for rank reassignment -/

lemma posOf_lt_length : ∀ (l : List ℕ) (x : ℕ), x ∈ l → posOf l x < l.length := by
  intro l
  induction l with
  | nil => intro x hx; cases hx
  | cons a t ih =>
      intro x hx
      rw [posOf]
      by_cases hax : a = x
      · rw [if_pos hax]
        simp
      · rw [if_neg hax]
        have hxt : x ∈ t := by
          rcases List.mem_cons.mp hx with rfl | h
          · exact absurd rfl hax
          · exact h
        have := ih x hxt
        simpa using this

lemma get_posOf : ∀ (l : List ℕ) (x : ℕ), x ∈ l → ∀ (hlt : posOf l x < l.length),
    l.get ⟨posOf l x, hlt⟩ = x := by
  intro l
  induction l with
  | nil => intro x hx; cases hx
  | cons a t ih =>
      intro x hx hlt
      by_cases hax : a = x
      · have h0 : posOf (a :: t) x = 0 := by rw [posOf, if_pos hax]
        have : (⟨posOf (a :: t) x, hlt⟩ : Fin (a :: t).length) = ⟨0, by simp⟩ :=
          Fin.ext h0
        rw [this]
        exact hax
      · have hxt : x ∈ t := by
          rcases List.mem_cons.mp hx with rfl | h
          · exact absurd rfl hax
          · exact h
        have hs : posOf (a :: t) x = posOf t x + 1 := by rw [posOf, if_neg hax]
        have hlt2 : posOf t x < t.length := posOf_lt_length t x hxt
        have : (⟨posOf (a :: t) x, hlt⟩ : Fin (a :: t).length) =
            ⟨posOf t x + 1, by simpa using Nat.succ_lt_succ hlt2⟩ := Fin.ext hs
        rw [this]
        exact ih x hxt hlt2

lemma posOf_cons_eq_zero (a : ℕ) (t : List ℕ) (x : ℕ) (h : posOf (a :: t) x = 0) :
    a = x := by
  by_cases hax : a = x
  · exact hax
  · rw [posOf, if_neg hax] at h
    exact absurd h (by simp)

lemma map_posOf_self : ∀ (l : List ℕ), l.Nodup → l.map (fun x => posOf l x) =
    List.range l.length := by
  intro l
  induction l with
  | nil => intro _; rfl
  | cons a t ih =>
      intro hnd
      rw [List.map_cons]
      have h0 : posOf (a :: t) a = 0 := by rw [posOf, if_pos rfl]
      have htail : t.map (fun x => posOf (a :: t) x) = t.map (fun x => posOf t x + 1) := by
        apply List.map_congr_left
        intro x hx
        have hax : a ≠ x := by
          intro hc
          exact (List.nodup_cons.mp hnd).1 (hc ▸ hx)
        rw [posOf, if_neg hax]
      rw [h0, htail]
      have : t.map (fun x => posOf t x + 1) = (t.map fun x => posOf t x).map (· + 1) := by
        rw [List.map_map]
        rfl
      rw [this, ih (List.nodup_cons.mp hnd).2]
      simp [List.length_cons, List.range_succ_eq_map, Nat.succ_eq_add_one]

lemma filter_key_length_le_one {α : Type} (key : α → ℕ) :
    ∀ (l : List α), (l.map key).Nodup → ∀ x : ℕ,
    (l.filter fun r => decide (key r = x)).length ≤ 1 := by
  intro l
  induction l with
  | nil => intro _ x; simp
  | cons a t ih =>
      intro hnd x
      by_cases hax : key a = x
      · rw [List.filter_cons_of_pos (by simpa using hax)]
        have hnil : t.filter (fun r => decide (key r = x)) = [] := by
          rw [List.filter_eq_nil]
          intro r hr
          simp only [decide_eq_true_eq]
          intro hc
          exact (List.nodup_cons.mp hnd).1
            ((hax ▸ hc : key r = key a) ▸ List.mem_map_of_mem key hr)
        rw [hnil]
        simp
      · rw [List.filter_cons_of_neg (by simpa using hax)]
        exact ih (List.nodup_cons.mp hnd).2 x

lemma flatMap_singleton {α β : Type} (f : α → List β) (g : α → β) :
    ∀ (l : List α), (∀ a ∈ l, f a = [g a]) → l.flatMap f = l.map g := by
  intro l
  induction l with
  | nil => intro _; rfl
  | cons a t ih =>
      intro h
      rw [List.flatMap_cons, h a (List.mem_cons_self a t), List.map_cons,
        ih fun b hb => h b (List.mem_cons_of_mem a hb)]
      rfl

/-- What the totals loop does to the table, given unique score ids. -/
lemma recalcTotalsTable_eq (db : DB)
    (hnd : (db.priority_scores.map fun r => r.score_id).Nodup) :
    recalcTotalsTable db = db.priority_scores.map fun r =>
      { r with total_priority_score := weightedTotal db.criteria r } := by
  unfold recalcTotalsTable
  exact sqlUpdateLoop_self (fun r => r.score_id)
    (fun r t => { r with total_priority_score := t })
    (fun r => weightedTotal db.criteria r)
    (fun _ _ => rfl) (fun _ _ _ => rfl) db.priority_scores hnd

/-- The ranking query rows, one per project, when every project's asset
exists and each asset has at most one score row. -/
lemma rankingRows_eq (db : DB)
    (hassets : ∀ p ∈ db.projects, ∃ a ∈ db.assets, a.asset_id = p.asset_id)
    (hle : ∀ p ∈ db.projects,
      (db.priority_scores.filter fun r => decide (r.asset_id = p.asset_id)).length ≤ 1) :
    rankingRows db = db.projects.map fun p => (p.project_id, projTotal db p) := by
  unfold rankingRows
  apply flatMap_singleton
  intro p hp
  obtain ⟨a, ha, haid⟩ := hassets p hp
  have hany : (db.assets.any fun a => decide (a.asset_id = p.asset_id)) = true := by
    rw [List.any_eq_true]
    exact ⟨a, ha, by simpa using haid⟩
  rw [if_pos hany]
  unfold projTotal
  cases hf : db.priority_scores.filter fun r => decide (r.asset_id = p.asset_id) with
  | nil => rfl
  | cons r rs =>
      have hlen := hle p hp
      rw [hf] at hlen
      have : rs = [] := by
        cases rs with
        | nil => rfl
        | cons y ys => simp at hlen
      subst this
      rfl

lemma enumFrom_rank_find {α : Type} (key : α → ℕ) :
    ∀ (l : List α) (k : ℕ) (x : ℕ), x ∈ l.map key → (l.map key).Nodup →
    ((List.enumFrom k l).map fun e => (key e.2, e.1)).reverse.find?
      (fun u => decide (u.1 = x)) = some (x, k + posOf (l.map key) x) := by
  intro l
  induction l with
  | nil => intro k x hx; cases hx
  | cons b t ih =>
      intro k x hx hnd
      show (((k, b) :: List.enumFrom (k + 1) t).map fun e => (key e.2, e.1)).reverse.find?
          (fun u => decide (u.1 = x)) = _
      rw [List.map_cons, List.reverse_cons, List.find?_append]
      by_cases hbx : key b = x
      · have hnone : ((List.enumFrom (k + 1) t).map fun e => (key e.2, e.1)).reverse.find?
            (fun u => decide (u.1 = x)) = none := by
          rw [List.find?_eq_none]
          intro u hu
          rw [List.mem_reverse, List.mem_map] at hu
          obtain ⟨e, he, rfl⟩ := hu
          have he2 : e.2 ∈ t := by
            have := List.mem_map_of_mem Prod.snd he
            rwa [List.enumFrom_map_snd] at this
          have : key e.2 ≠ x := by
            intro hc
            exact (List.nodup_cons.mp (by rwa [List.map_cons] at hnd)).1
              ((hbx ▸ hc : key e.2 = key b) ▸ List.mem_map_of_mem key he2)
          simpa using this
        rw [hnone]
        dsimp only [Option.or]
        rw [List.find?_cons_of_pos _ (by simpa using hbx)]
        have hpos : posOf (List.map key (b :: t)) x = 0 := by
          rw [List.map_cons, posOf, if_pos hbx]
        rw [List.map_cons] at hpos ⊢
        rw [hpos, hbx, Nat.add_zero]
      · have hxt : x ∈ t.map key := by
          rw [List.map_cons] at hx
          rcases List.mem_cons.mp hx with rfl | h
          · exact absurd rfl hbx
          · exact h
        have hnd2 : (t.map key).Nodup := by
          rw [List.map_cons] at hnd
          exact (List.nodup_cons.mp hnd).2
        rw [ih (k + 1) x hxt hnd2]
        dsimp only [Option.or]
        have hpos : posOf (List.map key (b :: t)) x = posOf (t.map key) x + 1 := by
          rw [List.map_cons, posOf, if_neg hbx]
        rw [List.map_cons] at hpos ⊢
        rw [hpos]
        have : k + 1 + posOf (List.map key t) x = k + (posOf (List.map key t) x + 1) := by
          omega
        rw [this]

/-- The rank UPDATE loop stamps each project with one plus the position of
its project id in the sorted list. -/
lemma assignRanks_char (sorted : List (ℕ × WithBot ℚ)) (table : List ProjectRow)
    (hnd : (sorted.map fun e => e.1).Nodup)
    (hmem : ∀ p ∈ table, p.project_id ∈ sorted.map fun e => e.1) :
    assignRanks sorted table = table.map fun p =>
      { p with
        priority_rank := some (1 + posOf (sorted.map fun e => e.1) p.project_id) } := by
  unfold assignRanks
  rw [sqlUpdateLoop_char (fun p : ProjectRow => p.project_id)
    (fun p (n : ℕ) => { p with priority_rank := some n })
    (fun _ _ => rfl) (fun _ _ _ => rfl)]
  apply List.map_congr_left
  intro p hp
  rw [enumFrom_rank_find (fun e : ℕ × WithBot ℚ => e.1) sorted 1 p.project_id
    (hmem p hp) hnd]

lemma map_posOf_some (l : List ℕ) (hnd : l.Nodup) :
    l.map (fun x => some (1 + posOf l x)) =
      (List.range l.length).map fun i => some (i + 1) := by
  have h1 : l.map (fun x => some (1 + posOf l x)) =
      (l.map fun x => posOf l x).map (fun n => some (1 + n)) := by
    rw [List.map_map]
    rfl
  rw [h1, map_posOf_self l hnd]
  apply List.map_congr_left
  intro i _
  rw [Nat.add_comm]

lemma recalc_final_eq (db : DB) (hcrit : db.criteria ≠ []) :
    (recalculate_priority_scores db).1 =
      { recalcMid db with
        projects := assignRanks (recalcSorted db) (recalcMid db).projects } := by
  rw [recalculate_priority_scores, if_neg (by simpa using hcrit)]

/-- Master characterization of the rank reassignment under the database
well-formedness assumptions: the final projects table, the identity of the
sorted id list, its nodup-ness, the content of the sort, and sortedness. -/
lemma recalc_rank_char (db : DB)
    (hcrit : db.criteria ≠ [])
    (hndp : (db.projects.map fun p => p.project_id).Nodup)
    (hnds : (db.priority_scores.map fun r => r.score_id).Nodup)
    (hnda : (db.priority_scores.map fun r => r.asset_id).Nodup)
    (hassets : ∀ p ∈ db.projects, ∃ a ∈ db.assets, a.asset_id = p.asset_id) :
    (recalculate_priority_scores db).1.projects = db.projects.map (fun p =>
      { p with
        priority_rank :=
          some (1 + posOf ((recalcSorted db).map fun e => e.1) p.project_id) }) ∧
    ((recalcSorted db).map fun e => e.1).Perm (db.projects.map fun p => p.project_id) ∧
    ((recalcSorted db).map fun e => e.1).Nodup ∧
    (recalcSorted db).Perm
      (db.projects.map fun p => (p.project_id, projTotal (recalcMid db) p)) ∧
    List.Sorted rankRel (recalcSorted db) := by
  have hmidscores : (recalcMid db).priority_scores = db.priority_scores.map (fun r =>
      { r with total_priority_score := weightedTotal db.criteria r }) :=
    recalcTotalsTable_eq db hnds
  have haid : (recalcMid db).priority_scores.map (fun r => r.asset_id) =
      db.priority_scores.map (fun r => r.asset_id) := by
    rw [hmidscores, List.map_map]
    rfl
  have hle : ∀ p ∈ (recalcMid db).projects,
      ((recalcMid db).priority_scores.filter fun r =>
        decide (r.asset_id = p.asset_id)).length ≤ 1 := by
    intro p _
    exact filter_key_length_le_one (fun r : PriorityScoreRow => r.asset_id)
      (recalcMid db).priority_scores (by rw [haid]; exact hnda) p.asset_id
  have hRR : rankingRows (recalcMid db) = (recalcMid db).projects.map fun p =>
      (p.project_id, projTotal (recalcMid db) p) :=
    rankingRows_eq _ hassets hle
  have hperm : (recalcSorted db).Perm (rankingRows (recalcMid db)) :=
    List.perm_insertionSort rankRel _
  have hperm2 : (recalcSorted db).Perm
      (db.projects.map fun p => (p.project_id, projTotal (recalcMid db) p)) := by
    rw [hRR] at hperm
    exact hperm
  have hsids : ((recalcSorted db).map fun e => e.1).Perm
      (db.projects.map fun p => p.project_id) := by
    have h1 := hperm2.map (fun e : ℕ × WithBot ℚ => e.1)
    rw [List.map_map] at h1
    exact h1
  have hndsids : ((recalcSorted db).map fun e => e.1).Nodup :=
    hsids.nodup_iff.mpr hndp
  have hmemp : ∀ p ∈ (recalcMid db).projects,
      p.project_id ∈ (recalcSorted db).map fun e => e.1 := by
    intro p hp
    exact hsids.mem_iff.mpr (List.mem_map_of_mem _ hp)
  refine ⟨?_, hsids, hndsids, hperm2, List.sorted_insertionSort rankRel _⟩
  rw [recalc_final_eq db hcrit]
  exact assignRanks_char _ _ hndsids hmemp

lemma projTotal_rank_update (db2 : DB) (w : ProjectRow) (n : Option ℕ) :
    projTotal db2 { w with priority_rank := n } = projTotal db2 w := rfl

lemma recalc_projTotal_eq (db : DB) (hcrit : db.criteria ≠ []) (w : ProjectRow) :
    projTotal (recalculate_priority_scores db).1 w = projTotal (recalcMid db) w := by
  unfold projTotal
  rw [recalc_final_eq db hcrit]

/-- C4: after a weighted recompute (with a non-empty criterion table, unique
ids, and every project's asset present), the priority_rank values over all
Project rows are exactly {1, …, N} — no gaps, no duplicates — assigned from
a single global sort by total descending, and a rank-1 project has the
maximum joined total. -/
theorem priority_ranks_complete (db : DB)
    (hcrit : db.criteria ≠ [])
    (hndp : (db.projects.map fun p => p.project_id).Nodup)
    (hnds : (db.priority_scores.map fun r => r.score_id).Nodup)
    (hnda : (db.priority_scores.map fun r => r.asset_id).Nodup)
    (hassets : ∀ p ∈ db.projects, ∃ a ∈ db.assets, a.asset_id = p.asset_id) :
    ((recalculate_priority_scores db).1.projects.map fun p => p.priority_rank).Perm
      ((List.range db.projects.length).map fun i => some (i + 1)) ∧
    (∀ p ∈ (recalculate_priority_scores db).1.projects, p.priority_rank = some 1 →
      ∀ q ∈ (recalculate_priority_scores db).1.projects,
        projTotal (recalculate_priority_scores db).1 q ≤
          projTotal (recalculate_priority_scores db).1 p) := by
  obtain ⟨hchar, hsids, hndsids, hperm2, hsorted⟩ :=
    recalc_rank_char db hcrit hndp hnds hnda hassets
  constructor
  · rw [hchar, List.map_map]
    have hstep : db.projects.map ((fun p : ProjectRow => p.priority_rank) ∘ fun p =>
        { p with
          priority_rank :=
            some (1 + posOf ((recalcSorted db).map fun e => e.1) p.project_id) }) =
        (db.projects.map fun p => p.project_id).map
          (fun x => some (1 + posOf ((recalcSorted db).map fun e => e.1) x)) := by
      rw [List.map_map]
      rfl
    rw [hstep]
    have h2 : ((db.projects.map fun p => p.project_id).map
        (fun x => some (1 + posOf ((recalcSorted db).map fun e => e.1) x))).Perm
        (((recalcSorted db).map fun e => e.1).map
          (fun x => some (1 + posOf ((recalcSorted db).map fun e => e.1) x))) :=
      (hsids.symm).map _
    have hlen : ((recalcSorted db).map fun e => e.1).length = db.projects.length := by
      have := hsids.length_eq
      simpa using this
    have h3 : (((recalcSorted db).map fun e => e.1).map
        (fun x => some (1 + posOf ((recalcSorted db).map fun e => e.1) x))) =
        (List.range db.projects.length).map fun i => some (i + 1) := by
      rw [map_posOf_some _ hndsids, hlen]
    rw [← h3]
    exact h2
  · intro p hp hrank1 q hq
    rw [hchar] at hp hq
    obtain ⟨u, hu, rfl⟩ := List.mem_map.mp hp
    obtain ⟨v, hv, rfl⟩ := List.mem_map.mp hq
    rw [recalc_projTotal_eq db hcrit, recalc_projTotal_eq db hcrit,
      projTotal_rank_update, projTotal_rank_update]
    have hpos0 : posOf ((recalcSorted db).map fun e => e.1) u.project_id = 0 := by
      have h1 : some (1 + posOf ((recalcSorted db).map fun e => e.1) u.project_id) =
          some 1 := hrank1
      have := (Option.some.injEq _ _).mp h1
      omega
    cases hs : recalcSorted db with
    | nil =>
        exfalso
        have hmemu : u.project_id ∈ (recalcSorted db).map fun e => e.1 :=
          hsids.mem_iff.mpr (List.mem_map_of_mem _ hu)
        rw [hs] at hmemu
        cases hmemu
    | cons e0 rest =>
        have he01 : e0.1 = u.project_id := by
          have := hpos0
          rw [hs, List.map_cons] at this
          exact posOf_cons_eq_zero _ _ _ this
        have he0mem : e0 ∈ recalcSorted db := by
          rw [hs]
          exact List.mem_cons_self e0 rest
        obtain ⟨w, hw, hwe⟩ := List.mem_map.mp (hperm2.mem_iff.mp he0mem)
        have hwu : w = u := by
          apply List.inj_on_of_nodup_map hndp hw hu
          rw [← hwe] at he01
          exact he01
        have he02 : e0.2 = projTotal (recalcMid db) u := by
          rw [← hwe, hwu]
        have hev : (v.project_id, projTotal (recalcMid db) v) ∈ recalcSorted db :=
          hperm2.mem_iff.mpr (List.mem_map_of_mem _ hv)
        rw [hs] at hev hsorted
        rcases List.mem_cons.mp hev with heq | hrest
        · have hveq : projTotal (recalcMid db) v = e0.2 := by rw [← heq]
          rw [hveq, he02]
          exact le_rfl
        · have hrel := List.rel_of_sorted_cons hsorted _ hrest
          have : projTotal (recalcMid db) v ≤ e0.2 := hrel
          rw [he02] at this
          exact this

/-- C10: during the rank reassignment every Project row receives a rank —
including projects whose asset has no PriorityScore row (their joined total
is NULL) — and such unscored projects always come after every scored
project, so they receive the largest rank numbers. -/
theorem unscored_projects_ranked_last (db : DB)
    (hcrit : db.criteria ≠ [])
    (hndp : (db.projects.map fun p => p.project_id).Nodup)
    (hnds : (db.priority_scores.map fun r => r.score_id).Nodup)
    (hnda : (db.priority_scores.map fun r => r.asset_id).Nodup)
    (hassets : ∀ p ∈ db.projects, ∃ a ∈ db.assets, a.asset_id = p.asset_id) :
    (∀ p ∈ (recalculate_priority_scores db).1.projects, p.priority_rank ≠ none) ∧
    (∀ p ∈ (recalculate_priority_scores db).1.projects,
     ∀ q ∈ (recalculate_priority_scores db).1.projects,
      projTotal (recalculate_priority_scores db).1 p = ⊥ →
      projTotal (recalculate_priority_scores db).1 q ≠ ⊥ →
      ∃ np nq, p.priority_rank = some np ∧ q.priority_rank = some nq ∧ nq < np) := by
  obtain ⟨hchar, hsids, hndsids, hperm2, hsorted⟩ :=
    recalc_rank_char db hcrit hndp hnds hnda hassets
  constructor
  · intro p hp
    rw [hchar] at hp
    obtain ⟨u, hu, rfl⟩ := List.mem_map.mp hp
    simp
  · intro p hp q hq hpbot hqbot
    rw [hchar] at hp hq
    obtain ⟨u, hu, rfl⟩ := List.mem_map.mp hp
    obtain ⟨v, hv, rfl⟩ := List.mem_map.mp hq
    rw [recalc_projTotal_eq db hcrit, projTotal_rank_update] at hpbot hqbot
    refine ⟨_, _, rfl, rfl, ?_⟩
    have hmemu : u.project_id ∈ (recalcSorted db).map fun e => e.1 :=
      hsids.mem_iff.mpr (List.mem_map_of_mem _ hu)
    have hmemv : v.project_id ∈ (recalcSorted db).map fun e => e.1 :=
      hsids.mem_iff.mpr (List.mem_map_of_mem _ hv)
    have hiu : posOf ((recalcSorted db).map fun e => e.1) u.project_id <
        ((recalcSorted db).map fun e => e.1).length := posOf_lt_length _ _ hmemu
    have hiv : posOf ((recalcSorted db).map fun e => e.1) v.project_id <
        ((recalcSorted db).map fun e => e.1).length := posOf_lt_length _ _ hmemv
    have hiu2 : posOf ((recalcSorted db).map fun e => e.1) u.project_id <
        (recalcSorted db).length := by simpa using hiu
    have hiv2 : posOf ((recalcSorted db).map fun e => e.1) v.project_id <
        (recalcSorted db).length := by simpa using hiv
    have hgu : ((recalcSorted db).get
        ⟨posOf ((recalcSorted db).map fun e => e.1) u.project_id, hiu2⟩).1 =
        u.project_id := by
      have hm := List.get_map (fun e : ℕ × WithBot ℚ => e.1) (l := recalcSorted db)
        (n := ⟨posOf ((recalcSorted db).map fun e => e.1) u.project_id, hiu⟩)
      rw [get_posOf _ _ hmemu hiu] at hm
      exact hm.symm
    have hgv : ((recalcSorted db).get
        ⟨posOf ((recalcSorted db).map fun e => e.1) v.project_id, hiv2⟩).1 =
        v.project_id := by
      have hm := List.get_map (fun e : ℕ × WithBot ℚ => e.1) (l := recalcSorted db)
        (n := ⟨posOf ((recalcSorted db).map fun e => e.1) v.project_id, hiv⟩)
      rw [get_posOf _ _ hmemv hiv] at hm
      exact hm.symm
    have helemu : (recalcSorted db).get
        ⟨posOf ((recalcSorted db).map fun e => e.1) u.project_id, hiu2⟩ =
        (u.project_id, projTotal (recalcMid db) u) := by
      obtain ⟨w, hw, hwe⟩ := List.mem_map.mp (hperm2.mem_iff.mp (List.get_mem _ _ _))
      have hwid : w.project_id = u.project_id := by
        have := congrArg Prod.fst hwe
        dsimp at this
        rw [this]
        exact hgu
      have hww : w = u := List.inj_on_of_nodup_map hndp hw hu hwid
      rw [← hwe, hww]
    have helemv : (recalcSorted db).get
        ⟨posOf ((recalcSorted db).map fun e => e.1) v.project_id, hiv2⟩ =
        (v.project_id, projTotal (recalcMid db) v) := by
      obtain ⟨w, hw, hwe⟩ := List.mem_map.mp (hperm2.mem_iff.mp (List.get_mem _ _ _))
      have hwid : w.project_id = v.project_id := by
        have := congrArg Prod.fst hwe
        dsimp at this
        rw [this]
        exact hgv
      have hww : w = v := List.inj_on_of_nodup_map hndp hw hv hwid
      rw [← hwe, hww]
    have hneid : u.project_id ≠ v.project_id := by
      intro hc
      have huv : u = v := List.inj_on_of_nodup_map hndp hu hv hc
      rw [huv] at hpbot
      exact hqbot hpbot
    have hneidx : posOf ((recalcSorted db).map fun e => e.1) u.project_id ≠
        posOf ((recalcSorted db).map fun e => e.1) v.project_id := by
      intro hc
      apply hneid
      rw [← hgu, ← hgv]
      congr 2
      exact Fin.ext hc
    have hnotlt : ¬ (posOf ((recalcSorted db).map fun e => e.1) u.project_id <
        posOf ((recalcSorted db).map fun e => e.1) v.project_id) := by
      intro hlt
      have hrel := hsorted.rel_get_of_lt
        (a := ⟨posOf ((recalcSorted db).map fun e => e.1) u.project_id, hiu2⟩)
        (b := ⟨posOf ((recalcSorted db).map fun e => e.1) v.project_id, hiv2⟩) hlt
      have hle : projTotal (recalcMid db) v ≤ projTotal (recalcMid db) u := by
        have := hrel
        unfold rankRel at this
        rw [helemu, helemv] at this
        exact this
      rw [hpbot] at hle
      exact hqbot (le_bot_iff.mp hle)
    omega


/-- Witness for C4 at the two-project state: ranks are a permutation of
{1, 2}. -/
theorem priority_ranks_complete_witness :
    ((recalculate_priority_scores recalcFailDB).1.projects.map fun p =>
      p.priority_rank).Perm
      ((List.range recalcFailDB.projects.length).map fun i => some (i + 1)) :=
  (priority_ranks_complete recalcFailDB (by decide) (by decide) (by decide) (by decide)
    (by decide)).1

/-- Witness for C10 at a three-project state whose third project is
unscored: the unscored project's rank exceeds a scored project's rank. -/
theorem unscored_projects_ranked_last_witness :
    ∃ np nq, (⟨3, 3, "s", 1, 1, some 3⟩ : ProjectRow).priority_rank = some np ∧
      (⟨1, 1, "s", 1, 1, some 2⟩ : ProjectRow).priority_rank = some nq ∧ nq < np :=
  (unscored_projects_ranked_last rankCexDB (by decide) (by decide) (by decide)
      (by decide) (by decide)).2
    ⟨3, 3, "s", 1, 1, some 3⟩
    (by simp +decide [recalculate_priority_scores, recalcMid, recalcTotalsTable,
      recalcSorted, rankingRows, assignRanks, sqlUpdateLoop, weightedTotal,
      criterionComponent, containsSub, strUpper, rankCexDB, recalcFailDB, seededDB])
    ⟨1, 1, "s", 1, 1, some 2⟩
    (by simp +decide [recalculate_priority_scores, recalcMid, recalcTotalsTable,
      recalcSorted, rankingRows, assignRanks, sqlUpdateLoop, weightedTotal,
      criterionComponent, containsSub, strUpper, rankCexDB, recalcFailDB, seededDB])
    (by simp +decide [recalculate_priority_scores, recalcMid, recalcTotalsTable,
      recalcSorted, rankingRows, assignRanks, sqlUpdateLoop, weightedTotal,
      criterionComponent, containsSub, strUpper, rankCexDB, recalcFailDB, seededDB,
      projTotal])
    (by simp +decide [recalculate_priority_scores, recalcMid, recalcTotalsTable,
      recalcSorted, rankingRows, assignRanks, sqlUpdateLoop, weightedTotal,
      criterionComponent, containsSub, strUpper, rankCexDB, recalcFailDB, seededDB,
      projTotal])

end Capex
